import Mathlib

/-!
Shallow embedding of the geolinkage core (node/arc classification, flow-break
resolution, river segmentation, grid-cell consolidation and connectivity
checking) together with proofs settling the frozen claims about it.

Python dictionaries are modelled as insertion-ordered association lists
(Python 3.7+ dicts preserve insertion order; updating an existing key keeps
its position).  Floating point metrics and coordinates are modelled as
rationals, and fallible dictionary/list indexing is modelled with
Option/Except.
-/

namespace GeoLink

/-- Lookup in a Python dict modelled as an insertion-ordered association list. -/
def dlookup {κ α : Type} [DecidableEq κ] (k : κ) : List (κ × α) → Option α
  | [] => none
  | (k1, v) :: rest => if k = k1 then some v else dlookup k rest

/-- Assignment `d[k] = v` on a Python dict: an existing key keeps its
position, a new key is appended at the end. -/
def dinsert {κ α : Type} [DecidableEq κ] (k : κ) (v : α) : List (κ × α) → List (κ × α)
  | [] => [(k, v)]
  | (k1, v1) :: rest => if k = k1 then (k, v) :: rest else (k1, v1) :: dinsert k v rest

/-- Dict access `d[k]` that raises KeyError when the key is absent
(`Except.error` models the raised exception). -/
def dgetE {κ α : Type} [DecidableEq κ] (k : κ) (d : List (κ × α)) : Except String α :=
  match dlookup k d with
  | some v => Except.ok v
  | none => Except.error "KeyError"

end GeoLink

namespace GK

/-! Embedding of `GeoKernel.setup_arcs` and
`GeoKernel._get_break_node_distance_from_arc` (src/GeoKernel.py), together
with `Utils.get_similarity_rate` (src/Utils.py, difflib quick_ratio). -/

open GeoLink

/-- Entry of `self.nodes` built in the node pass of `setup_arcs`. -/
structure NodeRec where
  type_id : Nat
  name : String
  x : ℚ
  y : ℚ
  cat : Nat
deriving DecidableEq, Repr

/-- Entry of `self.arcs` (`src_id`/`dst_id` are `None` for River/Canal arcs). -/
structure ArcRec where
  type_id : Nat
  src_id : Option Nat
  dst_id : Option Nat
deriving DecidableEq, Repr

/-- Entry of `self.rivers`. -/
structure RiverRec where
  name : String
  id : Nat
  cat : Nat
  type_id : Nat
deriving DecidableEq, Repr

/-- Entry of `self.demand_sites`. -/
structure DemandRec where
  name : String
  x : ℚ
  y : ℚ
  cat : Nat
  processed : Bool
  is_well : Bool
deriving DecidableEq, Repr

/-- Python value that is either a string or an integer (the `type` slot of
`self.other_nodes` holds the node name for return-flow nodes and the raw
type id otherwise). -/
inductive StrOrNat where
  | s (v : String)
  | n (v : Nat)
deriving DecidableEq, Repr

/-- Entry of `self.other_nodes`. -/
structure OtherRec where
  name : String
  typ : StrOrNat
  x : ℚ
  y : ℚ
deriving DecidableEq, Repr

/-- Entry of `self.river_break_nodes`.  Fields that the source initialises
to `None` and fills in later are Options. -/
structure BreakRec where
  node_id : Nat
  node_name : String
  node_type : Nat
  x : ℚ
  y : ℚ
  distance : Option ℚ
  main_river_id : Option Nat
  main_distance : Option ℚ
  secondary_river_id : Option Nat
  secondary_distance : Option ℚ
deriving DecidableEq, Repr

/-- Structured form of the warning messages appended with
`append_error(..., is_warn=True)` in `setup_arcs`: each constructor is one
message template, carrying the variable parts that the source interpolates
into the message text (offending endpoint name and type id, or the arc data). -/
inductive Warn where
  | riDst (name : String) (type_id : Nat)
  | riSrc (name : String) (type_id : Nat)
  | tlDstGw (name : String) (type_id : Nat)
  | tlDstDs (name : String) (type_id : Nat)
  | tlDstRw (name : String) (type_id : Nat)
  | tlDstRes (name : String) (type_id : Nat)
  | tlSrc (name : String) (type_id : Nat)
  | rfDst (name : String) (type_id : Nat)
  | rfSrc (name : String) (type_id : Nat)
  | riverNoName (line_id : Nat)
  | unknownArcType (name : String) (type_id : Nat) (line_id : Nat)
deriving DecidableEq, Repr

/-- Name of the offending endpoint interpolated into a whitelist warning. -/
def Warn.epName : Warn → String
  | .riDst n _ | .riSrc n _ | .tlDstGw n _ | .tlDstDs n _ | .tlDstRw n _
  | .tlDstRes n _ | .tlSrc n _ | .rfDst n _ | .rfSrc n _ => n
  | .riverNoName _ => ""
  | .unknownArcType n _ _ => n

/-- Type id of the offending endpoint interpolated into a whitelist warning. -/
def Warn.epType : Warn → Nat
  | .riDst _ t | .riSrc _ t | .tlDstGw _ t | .tlDstDs _ t | .tlDstRw _ t
  | .tlDstRes _ t | .tlSrc _ t | .rfDst _ t | .rfSrc _ t => t
  | .riverNoName _ => 0
  | .unknownArcType _ t _ => t

/-- Whether the warning blames the source endpoint (`nodo [inicio]`) rather
than the destination endpoint (`nodo [fin]`). -/
def Warn.blamesSrc : Warn → Bool
  | .riSrc _ _ | .tlSrc _ _ | .rfSrc _ _ => true
  | _ => false

/-- State of a `GeoKernel` instance as mutated by `setup_arcs`.
`warnings` are the `ErrorManager` entries appended with `is_warn=True`;
`errors` would hold non-warning entries (none is appended in `setup_arcs`);
`errors_rivers` is the internal `self._errors['rivers']` list, receiving
`(node_name, arc_name)` for each tolerated tributary-name mismatch. -/
structure GKState where
  nodes : List (Nat × NodeRec)
  arcs : List (Nat × ArcRec)
  links_tl : List (Nat × Nat)
  links_ri : List (Nat × Nat)
  links_rf : List (Nat × Nat)
  gws : List (Nat × String)
  catchments : List (Nat × String)
  demand_sites : List (Nat × DemandRec)
  other_nodes : List (Nat × OtherRec)
  river_break_nodes : List (Nat × BreakRec)
  rivers : List (Nat × RiverRec)
  warnings : List Warn
  errors : List Warn
  errors_rivers : List (String × String)

/-- The freshly constructed `GeoKernel` state (all tables empty). -/
def initState : GKState :=
  ⟨[], [], [], [], [], [], [], [], [], [], [], [], [], []⟩

/-- One record of the node map iterated by the node pass of `setup_arcs`
(`p.attrs` of a point).  A `None` name is modelled by the empty string,
matching Python truthiness. -/
structure NodeInput where
  point_id : Nat
  type_id : Nat
  name : String
  x : ℚ
  y : ℚ
  cat : Nat
deriving DecidableEq, Repr

/-- External geometry of a river arc, as consumed through the narrow
interface `line.distance(pt)` of `_check_point_on_line`: for a point it
yields whether the closest point on the line equals the point itself and
the distance from the line beginning. -/
def Geom : Type := ℚ × ℚ → Bool × ℚ

/-- One record of the arc map iterated by the arc pass of `setup_arcs`
(`l.attrs` of a line plus its geometry). -/
structure ArcInput where
  line_id : Nat
  type_id : Nat
  name : String
  cat : Nat
  src_id : Nat
  dst_id : Nat
  geom : Geom

/-- New break-node entry for a tributary inflow node (type id 13): only
this node type carries the secondary-river slots. -/
def mkTributaryBreak (n : NodeInput) : BreakRec :=
  ⟨n.point_id, n.name, 13, n.x, n.y, none, none, none, none, none⟩

/-- New break-node entry for the other break-node types (23, 10, 11). -/
def mkPlainBreak (n : NodeInput) (t : Nat) : BreakRec :=
  ⟨n.point_id, n.name, t, n.x, n.y, none, none, none, none, none⟩

/-- Body of the node loop of `setup_arcs` for one point record
(src/GeoKernel.py lines 222-379).  The point is first stored in `nodes`,
then dispatched on its type id; an unnamed break node is silently skipped
(the error appends in the source are commented out); finally an empty name
in the `nodes` entry is replaced by the default name of its branch. -/
def processNode (st : GKState) (p : NodeInput) : GKState :=
  let st := { st with
    nodes := dinsert p.point_id ⟨p.type_id, p.name, p.x, p.y, p.cat⟩ st.nodes }
  let fixup := fun (st : GKState) (defName : String) =>
    if p.name = "" then
      { st with nodes := dinsert p.point_id ⟨p.type_id, defName, p.x, p.y, p.cat⟩ st.nodes }
    else st
  if p.type_id = 3 then
    fixup { st with gws := dinsert p.point_id p.name st.gws } "groundwater"
  else if p.type_id = 21 then
    fixup { st with catchments := dinsert p.point_id p.name st.catchments } "catchment"
  else if p.type_id = 1 then
    fixup { st with
      demand_sites := dinsert p.point_id ⟨p.name, p.x, p.y, p.cat, false, false⟩ st.demand_sites }
      "demand site"
  else if p.type_id = 17 then
    fixup { st with
      other_nodes := dinsert p.point_id
        ⟨(if p.name = "" then "return flow node" else p.name), .s p.name, p.x, p.y⟩
        st.other_nodes } "return flow node"
  else if p.type_id = 13 then
    if p.name = "" then fixup st "tributary inflow"
    else { st with river_break_nodes := dinsert p.point_id (mkTributaryBreak p) st.river_break_nodes }
  else if p.type_id = 23 then
    if p.name = "" then fixup st "catchment inflow node"
    else { st with river_break_nodes := dinsert p.point_id (mkPlainBreak p 23) st.river_break_nodes }
  else if p.type_id = 10 then
    if p.name = "" then fixup st "river withdrawal"
    else { st with river_break_nodes := dinsert p.point_id (mkPlainBreak p 10) st.river_break_nodes }
  else if p.type_id = 11 then
    if p.name = "" then fixup st "diversion outflow"
    else { st with river_break_nodes := dinsert p.point_id (mkPlainBreak p 11) st.river_break_nodes }
  else
    fixup { st with
      other_nodes := dinsert p.point_id
        ⟨(if p.name = "" then "other" else p.name), .n p.type_id, p.x, p.y⟩
        st.other_nodes } "other"

/-- The match counter of difflib `SequenceMatcher.quick_ratio`: walks the
characters of `a` keeping an `avail` dict of remaining uses of each
character of `b`, counting a match whenever a use is still available. -/
def quickLoop (bcount : Char → Nat) : List Char → List (Char × Int) → Nat → Nat
  | [], _, nmatches => nmatches
  | c :: rest, avail, nmatches =>
    let numb : Int :=
      match dlookup c avail with
      | some v => v
      | none => (bcount c : Int)
    let avail2 := dinsert c (numb - 1) avail
    if numb > 0 then quickLoop bcount rest avail2 (nmatches + 1)
    else quickLoop bcount rest avail2 nmatches

/-- The normalized similarity computed by `seq.quick_ratio()` in
`Utils.get_similarity_rate`: `2 * nmatches / (len(a) + len(b))`, and `1`
when both strings are empty (difflib `_calculate_ratio`). -/
def quickRatio (a b : List Char) : ℚ :=
  let nmatches := quickLoop (fun c => b.count c) a [] 0
  if a.length + b.length ≠ 0 then
    2 * (nmatches : ℚ) / ((a.length + b.length : Nat) : ℚ)
  else 1

/-- Embedding of `Utils.get_similarity_rate`: whether the quick ratio of the
two strings reaches `min_rate`. -/
def get_similarity_rate (a_words b_words : String) (min_rate : ℚ) : Bool :=
  decide (quickRatio a_words.data b_words.data ≥ min_rate)

/-- Body of the loop of `GeoKernel._get_break_node_distance_from_arc` for one
break node (src/GeoKernel.py lines 183-215): given the river arc name, id and
geometry, returns the updated break node and the list of
`(node_name, arc_name)` tributary-mismatch warnings appended to
`self._errors['rivers']`.  The `'_by_name'` key skipped by the source cannot
occur here because keys are numeric ids. -/
def updateBreak (arc_name : String) (arc_id : Nat) (geom : Geom) (min_rate : ℚ)
    (bn : BreakRec) : BreakRec × List (String × String) :=
  if bn.node_name ≠ "" then
    let r := geom (bn.x, bn.y)
    if r.1 then
      if bn.node_type = 13 then
        if bn.node_name = arc_name ++ " Inflow" then
          ({ bn with secondary_river_id := some arc_id, secondary_distance := some r.2 }, [])
        else if get_similarity_rate bn.node_name (arc_name ++ " Inflow") min_rate then
          ({ bn with secondary_river_id := some arc_id, secondary_distance := some r.2 },
           [(bn.node_name, arc_name)])
        else
          ({ bn with main_river_id := some arc_id, main_distance := some r.2,
                     distance := some r.2 }, [])
      else
        ({ bn with main_river_id := some arc_id, main_distance := some r.2,
                   distance := some r.2 }, [])
    else (bn, [])
  else (bn, [])

/-- Embedding of `GeoKernel._get_break_node_distance_from_arc`: updates every
break node against one river arc, in table order, accumulating the
tributary-mismatch warnings. -/
def getBreakNodeDistanceFromArc (st : GKState) (arc_name : String) (arc_id : Nat)
    (geom : Geom) (min_rate : ℚ) : GKState :=
  let r := st.river_break_nodes.foldl
    (fun acc kv =>
      let u := updateBreak arc_name arc_id geom min_rate kv.2
      (acc.1 ++ [(kv.1, u.1)], acc.2 ++ u.2))
    ([], [])
  { st with river_break_nodes := r.1, errors_rivers := st.errors_rivers ++ r.2 }

/-- Body of the arc loop of `setup_arcs` for one line record
(src/GeoKernel.py lines 381-554).  Dictionary accesses
`self.nodes[node_src_id]` / `self.nodes[node_dst_id]` raise KeyError when the
referenced node does not exist, modelled by `Except.error`. -/
def processArc (st : GKState) (a : ArcInput) : Except String GKState :=
  if a.type_id = 22 then do
    let node_src ← dgetE a.src_id st.nodes
    let node_dst ← dgetE a.dst_id st.nodes
    if node_src.type_id = 21 then
      let st := { st with arcs := dinsert a.line_id ⟨22, some a.src_id, some a.dst_id⟩ st.arcs }
      if node_dst.type_id = 3 ∨ node_dst.type_id = 23 then
        return { st with links_ri := dinsert a.src_id a.dst_id st.links_ri }
      else
        return { st with warnings := st.warnings ++ [.riDst node_dst.name node_dst.type_id] }
    else
      return { st with warnings := st.warnings ++ [.riSrc node_src.name node_src.type_id] }
  else if a.type_id = 7 then do
    let node_src ← dgetE a.src_id st.nodes
    let node_dst ← dgetE a.dst_id st.nodes
    if node_src.type_id = 3 then
      let st := { st with arcs := dinsert a.line_id ⟨7, some a.src_id, some a.dst_id⟩ st.arcs }
      if node_dst.type_id = 1 ∨ node_dst.type_id = 21 then
        return { st with links_tl := dinsert a.src_id a.dst_id st.links_tl }
      else
        return { st with warnings := st.warnings ++ [.tlDstGw node_dst.name node_dst.type_id] }
    else if node_src.type_id = 1 then
      let st := { st with arcs := dinsert a.line_id ⟨7, some a.src_id, some a.dst_id⟩ st.arcs }
      if node_dst.type_id = 21 ∨ node_dst.type_id = 10 ∨ node_dst.type_id = 13 then
        return { st with links_tl := dinsert a.src_id a.dst_id st.links_tl }
      else
        return { st with warnings := st.warnings ++ [.tlDstDs node_dst.name node_dst.type_id] }
    else if node_src.type_id = 10 then
      let st := { st with arcs := dinsert a.line_id ⟨7, some a.src_id, some a.dst_id⟩ st.arcs }
      if node_dst.type_id = 1 ∨ node_dst.type_id = 21 then
        return { st with links_tl := dinsert a.src_id a.dst_id st.links_tl }
      else
        return { st with warnings := st.warnings ++ [.tlDstRw node_dst.name node_dst.type_id] }
    else if node_src.type_id = 4 then
      let st := { st with arcs := dinsert a.line_id ⟨7, some a.src_id, some a.dst_id⟩ st.arcs }
      if node_dst.type_id = 1 ∨ node_dst.type_id = 21 then
        return { st with links_tl := dinsert a.src_id a.dst_id st.links_tl }
      else
        return { st with warnings := st.warnings ++ [.tlDstRes node_dst.name node_dst.type_id] }
    else
      return { st with warnings := st.warnings ++ [.tlSrc node_src.name node_src.type_id] }
  else if a.type_id = 6 ∨ a.type_id = 15 then
    if a.name ≠ "" then
      let st := { st with
        rivers := dinsert a.line_id ⟨a.name, a.line_id, a.cat, a.type_id⟩ st.rivers,
        arcs := dinsert a.line_id ⟨a.type_id, none, none⟩ st.arcs }
      Except.ok (getBreakNodeDistanceFromArc st a.name a.line_id a.geom (9/10))
    else
      Except.ok { st with warnings := st.warnings ++ [.riverNoName a.line_id] }
  else if a.type_id = 8 then do
    let node_src ← dgetE a.src_id st.nodes
    let node_dst ← dgetE a.dst_id st.nodes
    if node_src.type_id = 1 then
      let st := { st with arcs := dinsert a.line_id ⟨8, some a.src_id, some a.dst_id⟩ st.arcs }
      if node_dst.type_id = 3 ∨ node_dst.type_id = 17 then
        return { st with links_rf := dinsert a.src_id a.dst_id st.links_rf }
      else
        return { st with warnings := st.warnings ++ [.rfDst node_dst.name node_dst.type_id] }
    else
      return { st with warnings := st.warnings ++ [.rfSrc node_src.name node_src.type_id] }
  else
    Except.ok { st with warnings := st.warnings ++ [.unknownArcType a.name a.type_id a.line_id] }

/-- Embedding of `GeoKernel.setup_arcs`: the node pass followed by the arc
pass, ending with the returned aggregate
`(self.check_errors(), self.get_errors())` pair (hasError and the non-warning
diagnostics of the feature type).  A raised KeyError aborts the whole pass. -/
def setup_arcs (nodemap : List NodeInput) (arcmap : List ArcInput) :
    Except String (GKState × Bool × List Warn) := do
  let st := nodemap.foldl processNode initState
  let st2 ← arcmap.foldlM processArc st
  return (st2, !st2.errors.isEmpty, st2.errors)

/-- Whitelisted endpoint-type pairs for Runoff/Infiltration arcs (type 22):
catchment (21) to groundwater (3) or catchment inflow node (23). -/
def riAllowed (s d : Nat) : Bool := s = 21 && (d = 3 || d = 23)

/-- Whitelisted endpoint-type pairs for Transmission Link arcs (type 7). -/
def tlAllowed (s d : Nat) : Bool :=
  (s = 3 && (d = 1 || d = 21)) || (s = 1 && (d = 21 || d = 10 || d = 13)) ||
  (s = 10 && (d = 1 || d = 21)) || (s = 4 && (d = 1 || d = 21))

/-- Whitelisted endpoint-type pairs for Return Flow arcs (type 8):
demand site (1) to groundwater (3) or return flow node (17). -/
def rfAllowed (s d : Nat) : Bool := s = 1 && (d = 3 || d = 17)

/-- Whitelist of the link category selected by arc type id `t`. -/
def categoryAllowed (t s d : Nat) : Bool :=
  if t = 22 then riAllowed s d else if t = 7 then tlAllowed s d else rfAllowed s d

/-- Whether the source endpoint type alone is acceptable for the category
selected by arc type id `t` (the guard of the branch that records the arc). -/
def categorySrcValid (t s : Nat) : Bool :=
  if t = 22 then s = 21
  else if t = 7 then s = 3 || s = 1 || s = 10 || s = 4
  else s = 1

/-- Link dictionary of the category selected by arc type id `t`. -/
def categoryLinks (t : Nat) (st : GKState) : List (Nat × Nat) :=
  if t = 22 then st.links_ri else if t = 7 then st.links_tl else st.links_rf

end GK

namespace GeoLink

/-- Python truthiness of an optional integer id: `None` and `0` are falsy. -/
def truthyId : Option Nat → Bool
  | none => false
  | some v => decide (v ≠ 0)

end GeoLink

namespace FP

/-! Embedding of the grid-cell consolidation of `FeatureProcess`
(src/FeatureProcess.py): `_set_cell`, `_cell_order_criteria_default`,
`_set_cell_by_criteria`, `get_cell_data_by_map`, `get_data_to_save` and
`all_files_imported`.  Python's `sorted` (stable) is modelled by
`List.insertionSort`, which performs the same stable insertion. -/

open GeoLink

/-- Grid coordinate (`namedtuple Cell(row, col)`), equality by value. -/
structure Cell where
  row : Nat
  col : Nat
deriving DecidableEq, Repr

/-- Tuple stored per geometry-cell intersection: the order metric
(`data[by_field]`, area or length), the external cell id (`b_cat`), the
feature name and the map it came from. -/
structure DataRec where
  metric : ℚ
  cell_id : Nat
  name : String
  map_name : String
deriving DecidableEq, Repr, Inhabited

/-- The `self.cells[cell][area_name][by_field] += area_area` update of
`_set_cell`: adds `m` to the metric of the entry named `area_name`. -/
def addMetric (area_name : String) (m : ℚ) :
    List (String × DataRec) → List (String × DataRec)
  | [] => []
  | (k, r) :: rest =>
    if k = area_name then (k, { r with metric := r.metric + m }) :: rest
    else (k, r) :: addMetric area_name m rest

/-- Embedding of `FeatureProcess._set_cell` (src/FeatureProcess.py lines
278-289): repeated occurrences of a feature name within a cell have their
metrics summed; a new feature name is appended to the cell's dict. -/
def set_cell (cells : List (Cell × List (String × DataRec))) (cell : Cell)
    (area_name : String) (data : DataRec) : List (Cell × List (String × DataRec)) :=
  match dlookup cell cells with
  | some d =>
    match dlookup area_name d with
    | some _ => dinsert cell (addMetric area_name data.metric d) cells
    | none => dinsert cell (d ++ [(area_name, data)]) cells
  | none => dinsert cell [(area_name, data)] cells

/-- Embedding of `FeatureProcess._cell_order_criteria_default`
(src/FeatureProcess.py lines 270-276): the cell's feature dict items sorted
by metric descending (Python's `sorted(..., reverse=True)` is stable, as is
`List.insertionSort` with this relation), with the keys stripped. -/
def cell_order_criteria_default (cell : Cell)
    (cells_dict : List (Cell × List (String × DataRec))) : List DataRec :=
  let area_targets := (dlookup cell cells_dict).getD []
  let area_targets_sorted :=
    List.insertionSort (fun a b : String × DataRec => b.2.metric ≤ a.2.metric) area_targets
  area_targets_sorted.map (fun p => p.2)

/-- Entry of `self.cell_ids`.  The winning id is
`area_targets_ordered[0]['cell_id']` in the source; `none` models the
IndexError the indexing would raise on an empty list. -/
structure CellEntry where
  number_of_data : Nat
  cell_id : Option Nat
  row : Nat
  col : Nat
  data : List DataRec
deriving DecidableEq, Repr

/-- Embedding of `FeatureProcess._set_cell_by_criteria`
(src/FeatureProcess.py lines 291-302) with the default criteria function. -/
def set_cell_by_criteria (cells : List (Cell × List (String × DataRec))) :
    List (Cell × CellEntry) :=
  cells.foldl
    (fun acc kv =>
      let ordered := cell_order_criteria_default kv.1 cells
      dinsert kv.1
        ⟨ordered.length, ordered.head?.map (fun r => r.cell_id), kv.1.row, kv.1.col, ordered⟩
        acc)
    []

/-- The stream of `_set_cell` calls issued by `make_cell_data_by_main_map` /
`make_cell_data_by_secondary_maps`: each intersection tuple is stored under
its feature name (`self._set_cell(cell, feature_name, data)` with
`feature_name = data['name']`). -/
def buildCells (inputs : List (Cell × DataRec)) : List (Cell × List (String × DataRec)) :=
  inputs.foldl (fun cs p => set_cell cs p.1 p.2.name p.2) []

/-- Consolidation of one layer: accumulate all intersection tuples with
`_set_cell`, then run `_set_cell_by_criteria` (the source recomputes the
latter after each map; the final run over the completed `self.cells` is the
one that determines `self.cell_ids`). -/
def consolidate (inputs : List (Cell × DataRec)) : List (Cell × CellEntry) :=
  set_cell_by_criteria (buildCells inputs)

/-- Embedding of `FeatureProcess.get_cell_data_by_map` (src/FeatureProcess.py
lines 502-506). -/
def get_cell_data_by_map (cell_ids : List (Cell × CellEntry)) (map_name : String)
    (cell : Cell) : List DataRec :=
  match dlookup cell cell_ids with
  | some e => e.data.filter (fun d => d.map_name = map_name)
  | none => []

/-- Per-layer options read by `get_data_to_save`: the concrete subclass name
(`self.__class__.__name__`), `int(self._feature_opts['columns_to_save'] or 0)`
and the column-name stem used by `get_columns`. -/
structure LayerOpts where
  className : String
  columns_to_save : Nat
  colStem : String
deriving DecidableEq, Repr

/-- Embedding of `FeatureProcess.get_columns` for the primary map: the
`columns_to_save` column names `stem1, stem2, ...`. -/
def get_columns (opts : LayerOpts) : List String :=
  (List.range opts.columns_to_save).map (fun i => opts.colStem ++ toString (i + 1))

/-- Variable parts of the truncation warning of `get_data_to_save`: the cell,
the map, the number of features found and the column budget. -/
structure SaveWarn where
  row : Nat
  col : Nat
  map_name : String
  found : Nat
  allowed : Nat
deriving DecidableEq, Repr

/-- Embedding of the `main_data=True` branch of
`FeatureProcess.get_data_to_save` (src/FeatureProcess.py lines 422-442):
returns the emitted column assignments in assignment order together with the
truncation warnings appended via `append_error`. -/
def get_data_to_save (opts : LayerOpts) (cell_ids : List (Cell × CellEntry))
    (cell : Cell) (main_map : String) : List (String × String) × List SaveWarn :=
  let col_data := get_cell_data_by_map cell_ids main_map cell
  let col_names := get_columns opts
  let cols_number := opts.columns_to_save
  if col_data ≠ [] then
    let warns :=
      if col_data.length > cols_number ∧ opts.className = "DemandSiteProcess" then
        [⟨cell.row, cell.col, main_map, col_data.length, cols_number⟩]
      else []
    let values_to_save := min cols_number col_data.length
    let filled := (col_names.zip col_data).map (fun p => (p.1, p.2.name))
    let empties := (List.range (cols_number - values_to_save)).map
      (fun j => (col_names.getD (cols_number - (j + 1)) "", ""))
    (filled ++ empties, warns)
  else
    (col_names.map (fun cn => (cn, "")), [])

/-- Embedding of `FeatureProcess.all_files_imported` (src/FeatureProcess.py
lines 574-580): the accumulator starts at `False` and is conjoined with each
map's `imported` flag. -/
def all_files_imported (map_names : List (String × Bool)) : Bool :=
  map_names.foldl (fun imported file_data => imported && file_data.2) false

/-- Reference per-cell dictionary: the inner `_set_cell` update folded over
the records of a single cell, used to reason about `buildCells` cell-wise. -/
def cellDict (recs : List DataRec) : List (String × DataRec) :=
  recs.foldl
    (fun d r =>
      match dlookup r.name d with
      | some _ => addMetric r.name r.metric d
      | none => d ++ [(r.name, r)])
    []

/-- Records of the input stream that landed in one cell (claim C3). -/
def inputsAt (inputs : List (Cell × DataRec)) (cell : Cell) : List DataRec :=
  (inputs.filter (fun p => p.1 = cell)).map (fun p => p.2)

/-- Total metric contributed to feature `n` of one cell by the input stream
(claim C3). -/
def metricSum (inputs : List (Cell × DataRec)) (cell : Cell) (n : String) : ℚ :=
  (((inputsAt inputs cell).filter (fun r => r.name = n)).map (fun r => r.metric)).sum

end FP

namespace RN

/-! Embedding of `RiverNode.get_order_children_by_distance` and
`RiverNode.get_break_input_by_river` (src/RiverNode.py). -/

open GeoLink

/-- Attributes of a `RiverNode` read by `get_break_input_by_river`. -/
structure RData where
  node_id : Nat
  node_name : String
  node_type : Nat
  node_distance : ℚ
  node_cat : Int
  secondary_river_id : Option Nat
  secondary_river_name : String
  secondary_river_cat : Int
deriving DecidableEq, Repr

/-- A `RiverNode` tree node: its attributes and its children. -/
inductive RNode where
  | mk (rdata : RData) (children : List RNode)

/-- Attributes of the node. -/
def RNode.rdata : RNode → RData
  | .mk d _ => d

/-- Children of the node (`anytree` children). -/
def RNode.children : RNode → List RNode
  | .mk _ c => c

/-- Segment offset: a numeric distance or the literal `'100%'`. -/
inductive Offset where
  | dist (d : ℚ)
  | pct100
deriving DecidableEq, Repr

/-- One emitted segment dict (the constant `'type': 'L'` slot is omitted;
every segment carries it). -/
structure Segment where
  cat : Int
  start_offset : Offset
  end_offset : Offset
  break_name : String
  river_name : String
deriving DecidableEq, Repr

/-- Embedding of `RiverNode.get_order_children_by_distance` for a non-root
node (src/RiverNode.py lines 75-80): children sorted ascending by
`node_distance`; Python's stable `sorted` is `List.insertionSort` with this
relation. -/
def get_order_children_by_distance (children : List RNode) : List RNode :=
  List.insertionSort
    (fun a b : RNode => a.rdata.node_distance ≤ b.rdata.node_distance) children

/-- The child loop of `get_break_input_by_river` (src/RiverNode.py lines
131-187) including the trailing `for ... else` segment, carrying the
`node_before_name` / `node_before_distance` / `last_child` variables.  For a
non-leaf child the source recurses into the child and discards the result
(the recursion only stores the child's own segments on the child), so it
contributes nothing to the current river's list; a leaf Tributary Inflow
child (type 13) with a truthy `secondary_river_id` first emits a full-length
segment for its secondary river. -/
def segLoop (river_cat : Int) (river_name : String) :
    List RNode → Bool → String → ℚ → RData → List Segment
  | [], _, _, _, last =>
    [⟨river_cat, .dist last.node_distance, .pct100,
      "Below " ++ last.node_name, river_name⟩]
  | c :: rest, isFirst, before_name, before_dist, _ =>
    let extra : List Segment :=
      if c.children.isEmpty then
        if c.rdata.node_type = 13 ∧ truthyId c.rdata.secondary_river_id then
          [⟨c.rdata.secondary_river_cat, .dist 0, .pct100,
            "Below " ++ c.rdata.secondary_river_name ++ " Headflow",
            c.rdata.secondary_river_name⟩]
        else []
      else []
    let seg : Segment :=
      ⟨river_cat, .dist before_dist, .dist c.rdata.node_distance,
       (if isFirst then "Below " ++ before_name ++ " Headflow"
        else "Below " ++ before_name), river_name⟩
    extra ++ seg ::
      segLoop river_cat river_name rest false c.rdata.node_name c.rdata.node_distance c.rdata

/-- Embedding of `RiverNode.get_break_input_by_river` called on a river node
(src/RiverNode.py lines 112-191): order the children by distance and run the
segment loop with `node_before_name = riverName`, `node_before_distance = 0`
and `last_child` initially the river node itself. -/
def get_break_input_by_river (river : RNode) : List Segment :=
  let children := get_order_children_by_distance river.children
  segLoop river.rdata.node_cat river.rdata.node_name children true
    river.rdata.node_name 0 river.rdata

/-- Transcription of claim C2's expected segment list, written from the
claim's words: walking the distance-sorted children with `prevName`
initially the river name and `prevDist` initially `0`, each leaf
TributaryInflow child with a resolved secondary river first contributes one
extra full-length segment on the secondary river, then the child contributes
the segment `[prevDist, child.distance]` (named `Below <prevName> Headflow`
for the first child and `Below <prevName>` afterwards); after the last child
the trailing segment `[lastDist, 100%]` named `Below <lastChildName>` is
emitted. -/
def claimSeg (river_cat : Int) (river_name : String) :
    List RNode → String → ℚ → Bool → List Segment
  | [], prevName, prevDist, _ =>
    [⟨river_cat, .dist prevDist, .pct100, "Below " ++ prevName, river_name⟩]
  | c :: rest, prevName, prevDist, isFirst =>
    (if c.children.isEmpty ∧ c.rdata.node_type = 13 ∧ truthyId c.rdata.secondary_river_id then
      [⟨c.rdata.secondary_river_cat, .dist 0, .pct100,
        "Below " ++ c.rdata.secondary_river_name ++ " Headflow",
        c.rdata.secondary_river_name⟩]
     else []) ++
    ⟨river_cat, .dist prevDist, .dist c.rdata.node_distance,
     (if isFirst then "Below " ++ prevName ++ " Headflow" else "Below " ++ prevName),
     river_name⟩ ::
    claimSeg river_cat river_name rest c.rdata.node_name c.rdata.node_distance false

end RN

namespace SP

/-! Embedding of `SuperpositionCheck` (src/postprocessors/SuperpositionCheck.py)
driven by the `GeoChecker` loops (src/postprocessors/GeoChecker.py). -/

open GeoLink

/-- Node data read by the check (`type_id` and `name`). -/
structure SNode where
  type_id : Nat
  name : String
deriving DecidableEq, Repr

/-- Arc data read by `arc_check_operation` (river arcs carry `None` ids). -/
structure SArc where
  src_id : Option Nat
  dst_id : Option Nat
deriving DecidableEq, Repr

/-- State of a `SuperpositionCheck` instance.  `errors` is the `Check.errors`
list; each appended message is modelled by its variable parts: the base
element and the snapshot of its disconnected-secondary dict interpolated
into the f-string by `make_errors`. -/
structure SPState where
  base_names : List (String × Nat)
  secondary_names : List (String × Nat)
  nodes : List (Nat × SNode)
  connections : List (String × List (String × Nat))
  connection_error : List (String × List (String × Nat))
  errors : List (String × List (String × Nat))
deriving DecidableEq, Repr

/-- A freshly constructed check (all dicts and the error list empty). -/
def initSP : SPState := ⟨[], [], [], [], [], []⟩

/-- Embedding of `SuperpositionCheck.add_error` (lines 101-106): ensure the
nested dicts exist, then increment the `(base, super)` counter. -/
def add_error (st : SPState) (base_element super_element : String) : SPState :=
  let d := (dlookup base_element st.connection_error).getD []
  let c := (dlookup super_element d).getD 0
  let d2 := dinsert super_element (c + 1) d
  { st with connection_error := dinsert base_element d2 st.connection_error }

/-- Embedding of `SuperpositionCheck.make_errors` (lines 108-110): append one
message per base element currently in `connection_error`, carrying the
snapshot of its secondaries dict. -/
def make_errors (st : SPState) : SPState :=
  { st with errors := st.errors ++ st.connection_error }

/-- Embedding of `SuperpositionCheck.set_connection` (lines 112-116). -/
def set_connection (st : SPState) (base_info secondary_info : SNode) : SPState :=
  let d := (dlookup base_info.name st.connections).getD []
  let d2 := dinsert secondary_info.name 0 d
  { st with connections := dinsert base_info.name d2 st.connections }

/-- Embedding of `SuperpositionCheck.check_connection` (lines 118-123):
`self.connections.get(base_name)` is truthy only for a present, non-empty
dict; a falsy value means the base element has no recorded connection and
the check returns True. -/
def check_connection (st : SPState) (base_name secondary_name : String) : Bool :=
  match dlookup base_name st.connections with
  | some d => if d.isEmpty then true else (dlookup secondary_name d).isSome
  | none => true

/-- Embedding of `SuperpositionCheck.node_init_operation` (lines 228-236). -/
def node_init_operation (bft sft : Nat) (st : SPState) (node_id : Nat) (node : SNode) :
    SPState :=
  if node.type_id = bft ∨ node.type_id = sft then
    let st := { st with nodes := dinsert node_id node st.nodes }
    if node.type_id = bft then
      { st with base_names := dinsert node.name 0 st.base_names,
                connections := dinsert node.name [] st.connections }
    else
      { st with secondary_names := dinsert node.name 0 st.secondary_names }
  else st

/-- Embedding of `SuperpositionCheck.arc_check_operation` (lines 241-249). -/
def arc_check_operation (bft sft : Nat) (st : SPState) (arc : SArc) : SPState :=
  if truthyId arc.src_id ∧ truthyId arc.dst_id then
    match arc.src_id, arc.dst_id with
    | some src_id, some dst_id =>
      match dlookup src_id st.nodes, dlookup dst_id st.nodes with
      | some ns, some nd =>
        if ns.type_id = bft ∧ nd.type_id = sft then set_connection st ns nd
        else if ns.type_id = sft ∧ nd.type_id = bft then set_connection st nd ns
        else st
      | _, _ => st
    | _, _ => st
  else st

/-- A consolidated cell as handed to `cell_check_operation`: per feature-type
key, either `None` or the cell's data reduced to its feature names (only
`base['name']` / `secondary['name']` is read). -/
def MCell : Type := List (String × Option (List String))

/-- Embedding of `Check.get_cell_feature_data`
(src/postprocessors/Check.py lines 70-76): `cell[feature_type]` raises
KeyError on a missing key; a falsy slot yields the empty list. -/
def get_cell_feature_data (cell : MCell) (feature_type : String) :
    Except String (List String) :=
  match dlookup feature_type cell with
  | none => Except.error "KeyError"
  | some none => Except.ok []
  | some (some f) => Except.ok f

/-- Increment `d[k] += 1` on a counter dict; KeyError when absent. -/
def bumpE (d : List (String × Nat)) (k : String) : Except String (List (String × Nat)) :=
  match dlookup k d with
  | some v => Except.ok (dinsert k (v + 1) d)
  | none => Except.error "KeyError"

/-- The inner (per secondary element) body of `cell_check_operation`
(lines 261-268): bump the secondary counter, then either record an error or,
when the base has a truthy connection dict, bump the connection counter. -/
def checkPairStep (st : SPState) (base_name secondary_name : String) :
    Except String SPState := do
  let sn ← bumpE st.secondary_names secondary_name
  let st := { st with secondary_names := sn }
  if !check_connection st base_name secondary_name then
    return add_error st base_name secondary_name
  else
    match dlookup base_name st.connections with
    | some d =>
      if d.isEmpty then return st
      else
        match dlookup secondary_name d with
        | some c =>
          let d2 := dinsert secondary_name (c + 1) d
          return { st with connections := dinsert base_name d2 st.connections }
        | none => Except.error "KeyError"
    | none => return st

/-- Embedding of `SuperpositionCheck.cell_check_operation` (lines 254-270):
loop over the base and secondary feature data of the cell, then call
`make_errors` — the source calls it at the end of every cell operation, not
once per run. -/
def cell_check_operation (base_feature secondary_feature : String) (st : SPState)
    (cell : MCell) : Except String SPState := do
  let base_element_data ← get_cell_feature_data cell base_feature
  let secondary_element_data ← get_cell_feature_data cell secondary_feature
  let st2 ← base_element_data.foldlM
    (fun st base_name => do
      let bn ← bumpE st.base_names base_name
      let st := { st with base_names := bn }
      secondary_element_data.foldlM
        (fun st secondary_name => checkPairStep st base_name secondary_name) st)
    st
  return make_errors st2

/-- One `GeoChecker.run` over a single `SuperpositionCheck`: the node init
loop, the arc check loop and the cell check loop (the arc init, cell init
and node check operations of this check do nothing). -/
def runChecks (bft sft : Nat) (base_feature secondary_feature : String)
    (nodes : List (Nat × SNode)) (arcs : List SArc) (cells : List MCell) :
    Except String SPState := do
  let st := nodes.foldl (fun st kv => node_init_operation bft sft st kv.1 kv.2) initSP
  let st := arcs.foldl (arc_check_operation bft sft) st
  cells.foldlM (cell_check_operation base_feature secondary_feature) st

end SP

/-! Helper lemmas about the dict model. -/

namespace GeoLink

theorem dlookup_dinsert_self {κ α : Type} [DecidableEq κ] (k : κ) (v : α)
    (d : List (κ × α)) : dlookup k (dinsert k v d) = some v := by
  induction d with
  | nil => simp [dinsert, dlookup]
  | cons kv rest ih =>
    obtain ⟨k1, v1⟩ := kv
    by_cases h : k = k1
    · simp [dinsert, dlookup, h]
    · simp [dinsert, dlookup, h, ih]

theorem dlookup_dinsert_ne {κ α : Type} [DecidableEq κ] {k k1 : κ} (v : α)
    (d : List (κ × α)) (h : k ≠ k1) :
    dlookup k (dinsert k1 v d) = dlookup k d := by
  induction d with
  | nil => simp [dinsert, dlookup, h]
  | cons kv rest ih =>
    obtain ⟨k2, v2⟩ := kv
    by_cases h2 : k1 = k2
    · subst h2
      simp [dinsert, dlookup, h]
    · by_cases h3 : k = k2 <;> simp [dinsert, dlookup, h2, h3, ih]

theorem dinsert_map_fst {κ α : Type} [DecidableEq κ] (k : κ) (v : α)
    (d : List (κ × α)) :
    (dinsert k v d).map Prod.fst =
      if (dlookup k d).isSome then d.map Prod.fst else d.map Prod.fst ++ [k] := by
  induction d with
  | nil => simp [dinsert, dlookup]
  | cons kv rest ih =>
    obtain ⟨k1, v1⟩ := kv
    by_cases h : k = k1
    · simp [dinsert, dlookup, h]
    · by_cases h2 : (dlookup k rest).isSome <;>
        simp [dinsert, dlookup, h, ih, h2]

theorem dlookup_isSome_iff_mem {κ α : Type} [DecidableEq κ] (k : κ)
    (d : List (κ × α)) : (dlookup k d).isSome ↔ k ∈ d.map Prod.fst := by
  induction d with
  | nil => simp [dlookup]
  | cons kv rest ih =>
    obtain ⟨k1, v1⟩ := kv
    by_cases h : k = k1 <;> simp [dlookup, h, ih]

theorem dlookup_eq_none_iff_not_mem {κ α : Type} [DecidableEq κ] (k : κ)
    (d : List (κ × α)) : dlookup k d = none ↔ k ∉ d.map Prod.fst := by
  rw [← dlookup_isSome_iff_mem, Option.isSome_iff_exists]
  cases dlookup k d <;> simp

theorem dlookup_append {κ α : Type} [DecidableEq κ] (k : κ)
    (d1 d2 : List (κ × α)) :
    dlookup k (d1 ++ d2) =
      match dlookup k d1 with
      | some v => some v
      | none => dlookup k d2 := by
  induction d1 with
  | nil => simp [dlookup]
  | cons kv rest ih =>
    obtain ⟨k1, v1⟩ := kv
    by_cases h : k = k1 <;> simp [dlookup, h, ih]

theorem dlookup_eq_some_of_mem_nodup {κ α : Type} [DecidableEq κ] {k : κ} {v : α}
    {d : List (κ × α)} (hnd : (d.map Prod.fst).Nodup) (hm : (k, v) ∈ d) :
    dlookup k d = some v := by
  induction d with
  | nil => simp at hm
  | cons kv rest ih =>
    obtain ⟨k1, v1⟩ := kv
    simp only [List.map_cons, List.nodup_cons] at hnd
    rcases List.mem_cons.mp hm with h | h
    · have hk : k = k1 := congrArg Prod.fst h
      have hv : v = v1 := congrArg Prod.snd h
      simp [dlookup, hk, hv]
    · have hkne : k ≠ k1 := by
        intro he
        subst he
        exact hnd.1 (List.mem_map.mpr ⟨(k, v), h, rfl⟩)
      simp [dlookup, hkne, ih hnd.2 h]

theorem mem_of_dlookup_eq_some {κ α : Type} [DecidableEq κ] {k : κ} {v : α}
    {d : List (κ × α)} (h : dlookup k d = some v) : (k, v) ∈ d := by
  induction d with
  | nil => simp [dlookup] at h
  | cons kv rest ih =>
    obtain ⟨k1, v1⟩ := kv
    by_cases hk : k = k1
    · subst hk
      simp [dlookup] at h
      simp [h]
    · simp [dlookup, hk] at h
      exact List.mem_cons_of_mem _ (ih h)

end GeoLink

/-- Claim C10: for every `FeatureProcess` state — including one in which
every registered map's `imported` flag is True — `all_files_imported`
returns False: its accumulator is initialised to `False` and only conjoined
with each map's flag, so no state makes it return True. -/
theorem C10_all_files_imported_always_false (map_names : List (String × Bool)) :
    FP.all_files_imported map_names = false := by
  show map_names.foldl (fun imported file_data => imported && file_data.2) false = false
  induction map_names with
  | nil => rfl
  | cons x xs ih => simpa using ih

/-- Claim C5 (code bug): an arc table containing a Runoff/Infiltration arc
whose endpoint ids reference no existing node makes `setup_arcs` raise
KeyError at `self.nodes[node_src_id]` and abort the classification pass,
instead of completing the pass with a warning and no recorded link. -/
theorem C5_setup_arcs_raises_on_dangling_arc :
    GK.setup_arcs [] [⟨50, 22, "a1", 1, 1, 2, fun _ => (false, 0)⟩] =
      Except.error "KeyError" := rfl

/-- Claim C8 (code bug): `make_errors` is invoked at the end of every
`cell_check_operation`, so a base element failing in two cells surfaces two
warnings naming it (with successive snapshots of its secondaries dict)
instead of exactly one warning per failing base element at the end of the
run. -/
theorem C8_duplicate_warnings_per_cell :
    (SP.runChecks 5 6 "groundwater" "demand_site"
        [(1, ⟨5, "b"⟩), (2, ⟨6, "s"⟩), (3, ⟨6, "s2"⟩)]
        [⟨some 1, some 3⟩]
        [[("groundwater", some ["b"]), ("demand_site", some ["s"])],
         [("groundwater", some ["b"]), ("demand_site", some ["s"])]]).map
      SP.SPState.errors =
      Except.ok [("b", [("s", 1)]), ("b", [("s", 2)])] := by
  rfl

/-- Claim C1 (counterexample): a Runoff/Infiltration arc between two
groundwater nodes (type pair (3, 3), not in the category's whitelist) is
not recorded in the Arc table — contrary to the claim that an arc with a
non-whitelisted endpoint pair is "still recorded in the Arc table" — even
though the classification emits the single source-endpoint warning. -/
theorem C1_counterexample_src_invalid_arc_not_recorded :
    GK.riAllowed 3 3 = false ∧
    (GK.processArc
        { GK.initState with
            nodes := [(1, ⟨3, "g1", 0, 0, 1⟩), (2, ⟨3, "g2", 0, 0, 2⟩)] }
        ⟨9, 22, "arc9", 3, 1, 2, fun _ => (false, 0)⟩).map
      (fun st => (GeoLink.dlookup 9 st.arcs, st.warnings)) =
      Except.ok (none, [GK.Warn.riSrc "g1" 3]) := by
  exact ⟨rfl, rfl⟩

theorem ebind_ok {ε α β : Type} (a : α) (f : α → Except ε β) :
    (Except.ok a >>= f : Except ε β) = f a := rfl

/-- Claim C1 (amended): for an arc whose type code maps to a link category
(22 Runoff/Infiltration, 7 Transmission Link, 8 Return Flow) and whose
endpoints exist, a whitelisted endpoint-type pair records the link in the
category's dictionary, records the arc in the Arc table and emits no
warning; a non-whitelisted pair records no link and emits exactly one
StructuralWarning naming the offending endpoint and its type, but the arc
is recorded in the Arc table only when the source endpoint type is valid
for the category — an arc with an invalid source type is not recorded. -/
theorem C1_whitelist_classification (st : GK.GKState) (a : GK.ArcInput)
    (ns nd : GK.NodeRec)
    (ht : a.type_id = 22 ∨ a.type_id = 7 ∨ a.type_id = 8)
    (hs : GeoLink.dlookup a.src_id st.nodes = some ns)
    (hd : GeoLink.dlookup a.dst_id st.nodes = some nd) :
    ∃ st2, GK.processArc st a = Except.ok st2 ∧
      (GK.categoryAllowed a.type_id ns.type_id nd.type_id = true →
        GK.categoryLinks a.type_id st2 =
          GeoLink.dinsert a.src_id a.dst_id (GK.categoryLinks a.type_id st) ∧
        GeoLink.dlookup a.line_id st2.arcs =
          some ⟨a.type_id, some a.src_id, some a.dst_id⟩ ∧
        st2.warnings = st.warnings) ∧
      (GK.categoryAllowed a.type_id ns.type_id nd.type_id = false →
        GK.categoryLinks a.type_id st2 = GK.categoryLinks a.type_id st ∧
        (∃ w, st2.warnings = st.warnings ++ [w] ∧
          (if GK.categorySrcValid a.type_id ns.type_id then
            w.epName = nd.name ∧ w.epType = nd.type_id ∧ w.blamesSrc = false
           else
            w.epName = ns.name ∧ w.epType = ns.type_id ∧ w.blamesSrc = true)) ∧
        (GK.categorySrcValid a.type_id ns.type_id = true →
          GeoLink.dlookup a.line_id st2.arcs =
            some ⟨a.type_id, some a.src_id, some a.dst_id⟩) ∧
        (GK.categorySrcValid a.type_id ns.type_id = false → st2.arcs = st.arcs)) := by
  rcases ht with hty | hty | hty <;> simp only [hty]
  · -- Runoff/Infiltration (22)
    by_cases h1 : ns.type_id = 21
    · by_cases h2 : nd.type_id = 3 ∨ nd.type_id = 23
      · refine ⟨{ st with
            arcs := GeoLink.dinsert a.line_id ⟨22, some a.src_id, some a.dst_id⟩ st.arcs,
            links_ri := GeoLink.dinsert a.src_id a.dst_id st.links_ri }, ?_, ?_, ?_⟩
        · simp only [GK.processArc, hty, GeoLink.dgetE, hs, hd, ebind_ok]
          simp only [if_pos h1, if_pos h2, pure, Except.pure]
          simp
        · intro _
          refine ⟨by simp [GK.categoryLinks], ?_, rfl⟩
          exact GeoLink.dlookup_dinsert_self ..
        · intro hal
          simp [GK.categoryAllowed, GK.riAllowed, h1] at hal
          rcases h2 with h2 | h2 <;> simp [h2] at hal
      · rw [not_or] at h2
        obtain ⟨h2a, h2b⟩ := h2
        refine ⟨{ st with
            arcs := GeoLink.dinsert a.line_id ⟨22, some a.src_id, some a.dst_id⟩ st.arcs,
            warnings := st.warnings ++ [GK.Warn.riDst nd.name nd.type_id] }, ?_, ?_, ?_⟩
        · simp only [GK.processArc, hty, GeoLink.dgetE, hs, hd, ebind_ok]
          simp only [if_pos h1, if_neg (by tauto : ¬(nd.type_id = 3 ∨ nd.type_id = 23)),
            pure, Except.pure]
          simp
        · intro hal
          simp [GK.categoryAllowed, GK.riAllowed, h1, h2a, h2b] at hal
        · intro _
          have hsv : GK.categorySrcValid 22 ns.type_id = true := by
            simp [GK.categorySrcValid, h1]
          refine ⟨?_, ?_, ?_, ?_⟩
          · simp [GK.categoryLinks]
          · refine ⟨GK.Warn.riDst nd.name nd.type_id, rfl, ?_⟩
            rw [if_pos hsv]
            exact ⟨rfl, rfl, rfl⟩
          · intro _
            exact GeoLink.dlookup_dinsert_self ..
          · intro hf
            rw [hsv] at hf
            cases hf
    · refine ⟨{ st with
          warnings := st.warnings ++ [GK.Warn.riSrc ns.name ns.type_id] }, ?_, ?_, ?_⟩
      · simp only [GK.processArc, hty, GeoLink.dgetE, hs, hd, ebind_ok]
        simp only [if_neg h1, pure, Except.pure]
        simp
      · intro hal
        simp [GK.categoryAllowed, GK.riAllowed, h1] at hal
      · intro _
        have hsv : GK.categorySrcValid 22 ns.type_id = false := by
          simp [GK.categorySrcValid, h1]
        refine ⟨?_, ?_, ?_, ?_⟩
        · simp [GK.categoryLinks]
        · refine ⟨GK.Warn.riSrc ns.name ns.type_id, rfl, ?_⟩
          rw [if_neg (by simp [hsv])]
          exact ⟨rfl, rfl, rfl⟩
        · intro hf
          rw [hsv] at hf
          cases hf
        · intro _
          rfl
  · -- Transmission Link (7)
    by_cases h1 : ns.type_id = 3
    · by_cases h2 : nd.type_id = 1 ∨ nd.type_id = 21
      · refine ⟨{ st with
            arcs := GeoLink.dinsert a.line_id ⟨7, some a.src_id, some a.dst_id⟩ st.arcs,
            links_tl := GeoLink.dinsert a.src_id a.dst_id st.links_tl }, ?_, ?_, ?_⟩
        · simp only [GK.processArc, hty, GeoLink.dgetE, hs, hd, ebind_ok]
          simp only [if_pos h1, if_pos h2, pure, Except.pure]
          simp
        · intro _
          refine ⟨by simp [GK.categoryLinks], ?_, rfl⟩
          exact GeoLink.dlookup_dinsert_self ..
        · intro hal
          simp [GK.categoryAllowed, GK.tlAllowed, h1] at hal
          rcases h2 with h2 | h2 <;> simp [h2] at hal
      · rw [not_or] at h2
        obtain ⟨h2a, h2b⟩ := h2
        refine ⟨{ st with
            arcs := GeoLink.dinsert a.line_id ⟨7, some a.src_id, some a.dst_id⟩ st.arcs,
            warnings := st.warnings ++ [GK.Warn.tlDstGw nd.name nd.type_id] }, ?_, ?_, ?_⟩
        · simp only [GK.processArc, hty, GeoLink.dgetE, hs, hd, ebind_ok]
          simp only [if_pos h1, if_neg (by tauto : ¬(nd.type_id = 1 ∨ nd.type_id = 21)),
            pure, Except.pure]
          simp
        · intro hal
          simp [GK.categoryAllowed, GK.tlAllowed, h1, h2a, h2b] at hal
        · intro _
          have hsv : GK.categorySrcValid 7 ns.type_id = true := by
            simp [GK.categorySrcValid, h1]
          refine ⟨?_, ?_, ?_, ?_⟩
          · simp [GK.categoryLinks]
          · refine ⟨GK.Warn.tlDstGw nd.name nd.type_id, rfl, ?_⟩
            rw [if_pos hsv]
            exact ⟨rfl, rfl, rfl⟩
          · intro _
            exact GeoLink.dlookup_dinsert_self ..
          · intro hf
            rw [hsv] at hf
            cases hf
    · by_cases h2 : ns.type_id = 1
      · by_cases h3 : nd.type_id = 21 ∨ nd.type_id = 10 ∨ nd.type_id = 13
        · refine ⟨{ st with
              arcs := GeoLink.dinsert a.line_id ⟨7, some a.src_id, some a.dst_id⟩ st.arcs,
              links_tl := GeoLink.dinsert a.src_id a.dst_id st.links_tl }, ?_, ?_, ?_⟩
          · simp only [GK.processArc, hty, GeoLink.dgetE, hs, hd, ebind_ok]
            simp only [if_neg h1, if_pos h2, if_pos h3, pure, Except.pure]
            simp
          · intro _
            refine ⟨by simp [GK.categoryLinks], ?_, rfl⟩
            exact GeoLink.dlookup_dinsert_self ..
          · intro hal
            simp [GK.categoryAllowed, GK.tlAllowed, h1, h2] at hal
            rcases h3 with h3 | h3 | h3 <;> simp [h3] at hal
        · rw [not_or, not_or] at h3
          obtain ⟨h3a, h3b, h3c⟩ := h3
          refine ⟨{ st with
              arcs := GeoLink.dinsert a.line_id ⟨7, some a.src_id, some a.dst_id⟩ st.arcs,
              warnings := st.warnings ++ [GK.Warn.tlDstDs nd.name nd.type_id] }, ?_, ?_, ?_⟩
          · simp only [GK.processArc, hty, GeoLink.dgetE, hs, hd, ebind_ok]
            simp only [if_neg h1, if_pos h2,
              if_neg (by tauto : ¬(nd.type_id = 21 ∨ nd.type_id = 10 ∨ nd.type_id = 13)),
              pure, Except.pure]
            simp
          · intro hal
            simp [GK.categoryAllowed, GK.tlAllowed, h1, h2, h3a, h3b, h3c] at hal
          · intro _
            have hsv : GK.categorySrcValid 7 ns.type_id = true := by
              simp [GK.categorySrcValid, h2]
            refine ⟨?_, ?_, ?_, ?_⟩
            · simp [GK.categoryLinks]
            · refine ⟨GK.Warn.tlDstDs nd.name nd.type_id, rfl, ?_⟩
              rw [if_pos hsv]
              exact ⟨rfl, rfl, rfl⟩
            · intro _
              exact GeoLink.dlookup_dinsert_self ..
            · intro hf
              rw [hsv] at hf
              cases hf
      · by_cases h3 : ns.type_id = 10
        · by_cases h4 : nd.type_id = 1 ∨ nd.type_id = 21
          · refine ⟨{ st with
                arcs := GeoLink.dinsert a.line_id ⟨7, some a.src_id, some a.dst_id⟩ st.arcs,
                links_tl := GeoLink.dinsert a.src_id a.dst_id st.links_tl }, ?_, ?_, ?_⟩
            · simp only [GK.processArc, hty, GeoLink.dgetE, hs, hd, ebind_ok]
              simp only [if_neg h1, if_neg h2, if_pos h3, if_pos h4, pure, Except.pure]
              simp
            · intro _
              refine ⟨by simp [GK.categoryLinks], ?_, rfl⟩
              exact GeoLink.dlookup_dinsert_self ..
            · intro hal
              simp [GK.categoryAllowed, GK.tlAllowed, h1, h2, h3] at hal
              rcases h4 with h4 | h4 <;> simp [h4] at hal
          · rw [not_or] at h4
            obtain ⟨h4a, h4b⟩ := h4
            refine ⟨{ st with
                arcs := GeoLink.dinsert a.line_id ⟨7, some a.src_id, some a.dst_id⟩ st.arcs,
                warnings := st.warnings ++ [GK.Warn.tlDstRw nd.name nd.type_id] }, ?_, ?_, ?_⟩
            · simp only [GK.processArc, hty, GeoLink.dgetE, hs, hd, ebind_ok]
              simp only [if_neg h1, if_neg h2, if_pos h3,
                if_neg (by tauto : ¬(nd.type_id = 1 ∨ nd.type_id = 21)), pure, Except.pure]
              simp
            · intro hal
              simp [GK.categoryAllowed, GK.tlAllowed, h1, h2, h3, h4a, h4b] at hal
            · intro _
              have hsv : GK.categorySrcValid 7 ns.type_id = true := by
                simp [GK.categorySrcValid, h3]
              refine ⟨?_, ?_, ?_, ?_⟩
              · simp [GK.categoryLinks]
              · refine ⟨GK.Warn.tlDstRw nd.name nd.type_id, rfl, ?_⟩
                rw [if_pos hsv]
                exact ⟨rfl, rfl, rfl⟩
              · intro _
                exact GeoLink.dlookup_dinsert_self ..
              · intro hf
                rw [hsv] at hf
                cases hf
        · by_cases h4 : ns.type_id = 4
          · by_cases h5 : nd.type_id = 1 ∨ nd.type_id = 21
            · refine ⟨{ st with
                  arcs := GeoLink.dinsert a.line_id ⟨7, some a.src_id, some a.dst_id⟩ st.arcs,
                  links_tl := GeoLink.dinsert a.src_id a.dst_id st.links_tl }, ?_, ?_, ?_⟩
              · simp only [GK.processArc, hty, GeoLink.dgetE, hs, hd, ebind_ok]
                simp only [if_neg h1, if_neg h2, if_neg h3, if_pos h4, if_pos h5,
                  pure, Except.pure]
                simp
              · intro _
                refine ⟨by simp [GK.categoryLinks], ?_, rfl⟩
                exact GeoLink.dlookup_dinsert_self ..
              · intro hal
                simp [GK.categoryAllowed, GK.tlAllowed, h1, h2, h3, h4] at hal
                rcases h5 with h5 | h5 <;> simp [h5] at hal
            · rw [not_or] at h5
              obtain ⟨h5a, h5b⟩ := h5
              refine ⟨{ st with
                  arcs := GeoLink.dinsert a.line_id ⟨7, some a.src_id, some a.dst_id⟩ st.arcs,
                  warnings := st.warnings ++ [GK.Warn.tlDstRes nd.name nd.type_id] },
                  ?_, ?_, ?_⟩
              · simp only [GK.processArc, hty, GeoLink.dgetE, hs, hd, ebind_ok]
                simp only [if_neg h1, if_neg h2, if_neg h3, if_pos h4,
                  if_neg (by tauto : ¬(nd.type_id = 1 ∨ nd.type_id = 21)), pure, Except.pure]
                simp
              · intro hal
                simp [GK.categoryAllowed, GK.tlAllowed, h1, h2, h3, h4, h5a, h5b] at hal
              · intro _
                have hsv : GK.categorySrcValid 7 ns.type_id = true := by
                  simp [GK.categorySrcValid, h4]
                refine ⟨?_, ?_, ?_, ?_⟩
                · simp [GK.categoryLinks]
                · refine ⟨GK.Warn.tlDstRes nd.name nd.type_id, rfl, ?_⟩
                  rw [if_pos hsv]
                  exact ⟨rfl, rfl, rfl⟩
                · intro _
                  exact GeoLink.dlookup_dinsert_self ..
                · intro hf
                  rw [hsv] at hf
                  cases hf
          · refine ⟨{ st with
                warnings := st.warnings ++ [GK.Warn.tlSrc ns.name ns.type_id] }, ?_, ?_, ?_⟩
            · simp only [GK.processArc, hty, GeoLink.dgetE, hs, hd, ebind_ok]
              simp only [if_neg h1, if_neg h2, if_neg h3, if_neg h4, pure, Except.pure]
              simp
            · intro hal
              simp [GK.categoryAllowed, GK.tlAllowed, h1, h2, h3, h4] at hal
            · intro _
              have hsv : GK.categorySrcValid 7 ns.type_id = false := by
                simp [GK.categorySrcValid, h1, h2, h3, h4]
              refine ⟨?_, ?_, ?_, ?_⟩
              · simp [GK.categoryLinks]
              · refine ⟨GK.Warn.tlSrc ns.name ns.type_id, rfl, ?_⟩
                rw [if_neg (by simp [hsv])]
                exact ⟨rfl, rfl, rfl⟩
              · intro hf
                rw [hsv] at hf
                cases hf
              · intro _
                rfl
  · -- Return Flow (8)
    by_cases h1 : ns.type_id = 1
    · by_cases h2 : nd.type_id = 3 ∨ nd.type_id = 17
      · refine ⟨{ st with
            arcs := GeoLink.dinsert a.line_id ⟨8, some a.src_id, some a.dst_id⟩ st.arcs,
            links_rf := GeoLink.dinsert a.src_id a.dst_id st.links_rf }, ?_, ?_, ?_⟩
        · simp only [GK.processArc, hty, GeoLink.dgetE, hs, hd, ebind_ok]
          simp only [if_pos h1, if_pos h2, pure, Except.pure]
          simp
        · intro _
          refine ⟨by simp [GK.categoryLinks], ?_, rfl⟩
          exact GeoLink.dlookup_dinsert_self ..
        · intro hal
          simp [GK.categoryAllowed, GK.rfAllowed, h1] at hal
          rcases h2 with h2 | h2 <;> simp [h2] at hal
      · rw [not_or] at h2
        obtain ⟨h2a, h2b⟩ := h2
        refine ⟨{ st with
            arcs := GeoLink.dinsert a.line_id ⟨8, some a.src_id, some a.dst_id⟩ st.arcs,
            warnings := st.warnings ++ [GK.Warn.rfDst nd.name nd.type_id] }, ?_, ?_, ?_⟩
        · simp only [GK.processArc, hty, GeoLink.dgetE, hs, hd, ebind_ok]
          simp only [if_pos h1, if_neg (by tauto : ¬(nd.type_id = 3 ∨ nd.type_id = 17)),
            pure, Except.pure]
          simp
        · intro hal
          simp [GK.categoryAllowed, GK.rfAllowed, h1, h2a, h2b] at hal
        · intro _
          have hsv : GK.categorySrcValid 8 ns.type_id = true := by
            simp [GK.categorySrcValid, h1]
          refine ⟨?_, ?_, ?_, ?_⟩
          · simp [GK.categoryLinks]
          · refine ⟨GK.Warn.rfDst nd.name nd.type_id, rfl, ?_⟩
            rw [if_pos hsv]
            exact ⟨rfl, rfl, rfl⟩
          · intro _
            exact GeoLink.dlookup_dinsert_self ..
          · intro hf
            rw [hsv] at hf
            cases hf
    · refine ⟨{ st with
          warnings := st.warnings ++ [GK.Warn.rfSrc ns.name ns.type_id] }, ?_, ?_, ?_⟩
      · simp only [GK.processArc, hty, GeoLink.dgetE, hs, hd, ebind_ok]
        simp only [if_neg h1, pure, Except.pure]
        simp
      · intro hal
        simp [GK.categoryAllowed, GK.rfAllowed, h1] at hal
      · intro _
        have hsv : GK.categorySrcValid 8 ns.type_id = false := by
          simp [GK.categorySrcValid, h1]
        refine ⟨?_, ?_, ?_, ?_⟩
        · simp [GK.categoryLinks]
        · refine ⟨GK.Warn.rfSrc ns.name ns.type_id, rfl, ?_⟩
          rw [if_neg (by simp [hsv])]
          exact ⟨rfl, rfl, rfl⟩
        · intro hf
          rw [hsv] at hf
          cases hf
        · intro _
          rfl

/-- Witness for C1: the classifier applied to a whitelisted
Runoff/Infiltration arc from a catchment node to a groundwater node, both
existing, with the stated conclusions instantiated at that input. -/
theorem C1_whitelist_classification_witness :
    ∃ st2,
      GK.processArc
          { GK.initState with
              nodes := [(1, ⟨21, "c1", 0, 0, 1⟩), (2, ⟨3, "g1", 0, 0, 2⟩)] }
          ⟨9, 22, "arc9", 3, 1, 2, fun _ => (false, 0)⟩ = Except.ok st2 ∧
      (GK.categoryAllowed 22 21 3 = true →
        GK.categoryLinks 22 st2 =
          GeoLink.dinsert 1 2 (GK.categoryLinks 22
            { GK.initState with
                nodes := [(1, ⟨21, "c1", 0, 0, 1⟩), (2, ⟨3, "g1", 0, 0, 2⟩)] }) ∧
        GeoLink.dlookup 9 st2.arcs = some ⟨22, some 1, some 2⟩ ∧
        st2.warnings =
          ({ GK.initState with
              nodes := [(1, ⟨21, "c1", 0, 0, 1⟩), (2, ⟨3, "g1", 0, 0, 2⟩)] } :
            GK.GKState).warnings) ∧
      (GK.categoryAllowed 22 21 3 = false →
        GK.categoryLinks 22 st2 =
          GK.categoryLinks 22
            { GK.initState with
                nodes := [(1, ⟨21, "c1", 0, 0, 1⟩), (2, ⟨3, "g1", 0, 0, 2⟩)] } ∧
        (∃ w, st2.warnings =
            ({ GK.initState with
                nodes := [(1, ⟨21, "c1", 0, 0, 1⟩), (2, ⟨3, "g1", 0, 0, 2⟩)] } :
              GK.GKState).warnings ++ [w] ∧
          (if GK.categorySrcValid 22 21 then
            w.epName = "g1" ∧ w.epType = 3 ∧ w.blamesSrc = false
           else
            w.epName = "c1" ∧ w.epType = 21 ∧ w.blamesSrc = true)) ∧
        (GK.categorySrcValid 22 21 = true →
          GeoLink.dlookup 9 st2.arcs = some ⟨22, some 1, some 2⟩) ∧
        (GK.categorySrcValid 22 21 = false →
          st2.arcs =
            ({ GK.initState with
                nodes := [(1, ⟨21, "c1", 0, 0, 1⟩), (2, ⟨3, "g1", 0, 0, 2⟩)] } :
              GK.GKState).arcs)) :=
  C1_whitelist_classification _ _ ⟨21, "c1", 0, 0, 1⟩ ⟨3, "g1", 0, 0, 2⟩
    (Or.inl rfl) rfl rfl

/-- Claim C6: for a TributaryInflow break node (type 13) whose coordinate
projects exactly onto a river arc's line, the resolver records the arc as
the node's secondary river with the along-line distance and no warning when
the node's name equals exactly `<arcName> Inflow`; still records it as
secondary but emits one tolerated-mismatch warning when the name differs yet
its quick-ratio similarity to `<arcName> Inflow` is at least 0.9; and
records the arc as the node's main river when the similarity is below 0.9.
When the projection does not lie exactly on the line nothing is recorded. -/
theorem C6_tributary_disambiguation (arc_name : String) (arc_id : Nat)
    (geom : GK.Geom) (bn : GK.BreakRec) (d : ℚ)
    (htype : bn.node_type = 13) (hname : bn.node_name ≠ "") :
    (geom (bn.x, bn.y) = (true, d) →
      ((bn.node_name = arc_name ++ " Inflow" →
        GK.updateBreak arc_name arc_id geom (9/10) bn =
          ({ bn with secondary_river_id := some arc_id,
                     secondary_distance := some d }, [])) ∧
       (bn.node_name ≠ arc_name ++ " Inflow" →
        GK.quickRatio bn.node_name.data (arc_name ++ " Inflow").data ≥ 9/10 →
        GK.updateBreak arc_name arc_id geom (9/10) bn =
          ({ bn with secondary_river_id := some arc_id,
                     secondary_distance := some d },
           [(bn.node_name, arc_name)])) ∧
       (bn.node_name ≠ arc_name ++ " Inflow" →
        GK.quickRatio bn.node_name.data (arc_name ++ " Inflow").data < 9/10 →
        GK.updateBreak arc_name arc_id geom (9/10) bn =
          ({ bn with main_river_id := some arc_id, main_distance := some d,
                     distance := some d }, [])))) ∧
    ((geom (bn.x, bn.y)).1 = false →
      GK.updateBreak arc_name arc_id geom (9/10) bn = (bn, [])) := by
  constructor
  · intro hgeom
    refine ⟨?_, ?_, ?_⟩
    · intro heq
      unfold GK.updateBreak
      rw [if_pos hname, hgeom]
      simp only [htype]
      rw [if_pos heq]
      simp
    · intro hne hsim
      have hrate : GK.get_similarity_rate bn.node_name (arc_name ++ " Inflow") (9/10)
          = true := by
        unfold GK.get_similarity_rate
        exact decide_eq_true hsim
      unfold GK.updateBreak
      rw [if_pos hname, hgeom]
      simp only [htype]
      rw [if_neg hne]
      simp [hrate]
    · intro hne hsim
      have hrate : GK.get_similarity_rate bn.node_name (arc_name ++ " Inflow") (9/10)
          = false := by
        unfold GK.get_similarity_rate
        exact decide_eq_false (not_le.mpr hsim)
      unfold GK.updateBreak
      rw [if_pos hname, hgeom]
      simp only [htype]
      rw [if_neg hne]
      simp [hrate]
  · intro hoff
    unfold GK.updateBreak
    rw [if_pos hname]
    simp [hoff]

/-- Witness for C6: the exact-name case in the classic scenario — a break
node named `Rio Grande Inflow` projecting onto the arc `Rio Grande` is
resolved as its secondary river with the recorded distance and no warning. -/
theorem C6_tributary_disambiguation_witness :
    GK.updateBreak "Rio Grande" 4 (fun _ => (true, 5)) (9/10)
        ⟨7, "Rio Grande Inflow", 13, 1, 2, none, none, none, none, none⟩ =
      ({ node_id := 7, node_name := "Rio Grande Inflow", node_type := 13,
         x := 1, y := 2, distance := none, main_river_id := none,
         main_distance := none, secondary_river_id := some 4,
         secondary_distance := some 5 }, []) :=
  ((C6_tributary_disambiguation "Rio Grande" 4 (fun _ => (true, 5))
      ⟨7, "Rio Grande Inflow", 13, 1, 2, none, none, none, none, none⟩ 5
      rfl (by decide)).1 rfl).1 rfl

/-- Claim C4: for a (base, secondary) feature-name pair checked in a cell
(with the secondary's counter present, as node initialisation guarantees):
when `b` never appears in the arc-derived connectivity mapping — its
`connections` slot is missing or still the empty dict created at node
initialisation — the check is satisfied and no error is recorded; otherwise
the check passes exactly when `s` is a member of `connectivity[b]`, and on
failure the pair `(b, s)` is recorded in the per-case error structure. -/
theorem C4_connectivity_check (st : SP.SPState) (b s : String) (v : Nat)
    (hv : GeoLink.dlookup s st.secondary_names = some v) :
    ((GeoLink.dlookup b st.connections = none ∨
      GeoLink.dlookup b st.connections = some []) →
      SP.check_connection st b s = true ∧
      ∃ st2, SP.checkPairStep st b s = Except.ok st2 ∧
        st2.connection_error = st.connection_error) ∧
    (∀ dconn, GeoLink.dlookup b st.connections = some dconn → dconn ≠ [] →
      (SP.check_connection st b s = true ↔ (GeoLink.dlookup s dconn).isSome) ∧
      ((GeoLink.dlookup s dconn).isSome →
        ∃ st2, SP.checkPairStep st b s = Except.ok st2 ∧
          st2.connection_error = st.connection_error) ∧
      (GeoLink.dlookup s dconn = none →
        ∃ st2, SP.checkPairStep st b s = Except.ok st2 ∧
          ∃ ec, GeoLink.dlookup b st2.connection_error = some ec ∧
            (GeoLink.dlookup s ec).isSome)) := by
  have hb : SP.bumpE st.secondary_names s =
      Except.ok (GeoLink.dinsert s (v + 1) st.secondary_names) := by
    simp [SP.bumpE, hv]
  constructor
  · intro hcase
    have hcheck : SP.check_connection st b s = true := by
      rcases hcase with h | h <;> simp [SP.check_connection, h]
    refine ⟨hcheck, ?_⟩
    refine ⟨{ st with
      secondary_names := GeoLink.dinsert s (v + 1) st.secondary_names }, ?_, rfl⟩
    simp only [SP.checkPairStep, hb, ebind_ok]
    rcases hcase with h | h <;> simp [SP.check_connection, h, pure, Except.pure]
  · intro dconn hd hne
    have hie : dconn.isEmpty = false := by
      cases dconn with
      | nil => exact absurd rfl hne
      | cons x xs => rfl
    have hcheck : SP.check_connection st b s = (GeoLink.dlookup s dconn).isSome := by
      simp [SP.check_connection, hd, hie]
    refine ⟨by rw [hcheck], ?_, ?_⟩
    · intro hsome
      obtain ⟨c, hc⟩ := Option.isSome_iff_exists.mp hsome
      refine ⟨{ st with
        secondary_names := GeoLink.dinsert s (v + 1) st.secondary_names,
        connections :=
          GeoLink.dinsert b (GeoLink.dinsert s (c + 1) dconn) st.connections },
        ?_, rfl⟩
      simp only [SP.checkPairStep, hb, ebind_ok]
      simp [SP.check_connection, hd, hie, hc, pure, Except.pure]
    · intro hnone
      refine ⟨SP.add_error
        { st with secondary_names := GeoLink.dinsert s (v + 1) st.secondary_names }
        b s, ?_, ?_⟩
      · simp only [SP.checkPairStep, hb, ebind_ok]
        simp [SP.check_connection, hd, hie, hnone, pure, Except.pure]
      · refine ⟨GeoLink.dinsert s
            ((GeoLink.dlookup s ((GeoLink.dlookup b st.connection_error).getD [])).getD 0 + 1)
            ((GeoLink.dlookup b st.connection_error).getD []), ?_, ?_⟩
        · simp only [SP.add_error]
          exact GeoLink.dlookup_dinsert_self ..
        · rw [GeoLink.dlookup_dinsert_self]
          rfl

/-- Witness for C4: in a state where base `b` is connected only to `x`,
checking the pair `(b, s)` fails exactly as the membership test says. -/
theorem C4_connectivity_check_witness :
    SP.check_connection ⟨[("b", 0)], [("s", 0)], [], [("b", [("x", 0)])], [], []⟩
        "b" "s" = true ↔
      (GeoLink.dlookup "s" [("x", (0 : Nat))]).isSome :=
  ((C4_connectivity_check ⟨[("b", 0)], [("s", 0)], [], [("b", [("x", 0)])], [], []⟩
      "b" "s" 0 rfl).2 [("x", 0)] rfl (by decide)).1

theorem zip_map_snd {α β γ : Type} (l : List α) (m : List β) (f : β → γ) :
    (l.zip m).map (fun p => (p.1, f p.2)) = l.zip (m.map f) := by
  induction l generalizing m with
  | nil => simp
  | cons x xs ih =>
    cases m with
    | nil => simp
    | cons y ys => simp [ih]

theorem map_fst_zip_take {α β : Type} (l : List α) (m : List β) :
    (l.zip m).map Prod.fst = l.take m.length := by
  induction l generalizing m with
  | nil => simp
  | cons x xs ih =>
    cases m with
    | nil => simp
    | cons y ys => simp [ih]

theorem range_map_getD_eq_reverse_drop {α : Type} (l : List α) (dflt : α) (v : Nat)
    (hv : v ≤ l.length) :
    (List.range (l.length - v)).map (fun j => l.getD (l.length - (j + 1)) dflt) =
      (l.drop v).reverse := by
  apply List.ext_getElem
  · simp
  · intro i h1 h2
    simp only [List.getElem_map, List.getElem_range, List.getElem_reverse]
    simp only [List.length_map, List.length_range] at h1
    rw [List.getElem_drop]
    rw [List.getD_eq_getElem]
    · congr 1
      simp only [List.length_reverse, List.length_drop] at h2 ⊢
      omega
    · omega

/-- Claim C7 (counterexample): on a catchment-like layer (class
`CatchmentProcess`, one output column) a cell holding two distinct features
of the main map is truncated with NO warning, although the claim requires a
warning whenever the distinct-feature count exceeds the column budget —
the source only warns when the class is `DemandSiteProcess`. -/
theorem C7_counterexample_no_warning_on_catchment_truncation :
    (FP.get_cell_data_by_map
        [(⟨2, 3⟩, ⟨2, some 11, 2, 3, [⟨5, 11, "A", "m"⟩, ⟨3, 12, "B", "m"⟩]⟩)]
        "m" ⟨2, 3⟩).length = 2 ∧
    (FP.get_data_to_save ⟨"CatchmentProcess", 1, "catch"⟩
        [(⟨2, 3⟩, ⟨2, some 11, 2, 3, [⟨5, 11, "A", "m"⟩, ⟨3, 12, "B", "m"⟩]⟩)]
        ⟨2, 3⟩ "m").2 = [] := by
  constructor
  · rfl
  · rfl

/-- Claim C7 (amended): for every layer and cell, column materialisation
fills exactly `min(M, N)` columns with the cell's feature names in their
(metric-descending) stored order, emits the remaining columns empty, and —
only on the demand-site layer (`DemandSiteProcess`) — emits one warning
recording the cell and the counts M and N whenever `M > N`; every other
layer truncates silently. -/
theorem C7_column_materialisation (opts : FP.LayerOpts)
    (cell_ids : List (FP.Cell × FP.CellEntry)) (cell : FP.Cell) (main_map : String) :
    (FP.get_data_to_save opts cell_ids cell main_map).1.take
        (min opts.columns_to_save
          (FP.get_cell_data_by_map cell_ids main_map cell).length) =
      (FP.get_columns opts).zip
        ((FP.get_cell_data_by_map cell_ids main_map cell).map (fun d => d.name)) ∧
    (∀ kv ∈ (FP.get_data_to_save opts cell_ids cell main_map).1.drop
        (min opts.columns_to_save
          (FP.get_cell_data_by_map cell_ids main_map cell).length),
      kv.2 = "") ∧
    ((FP.get_data_to_save opts cell_ids cell main_map).1.map Prod.fst).Perm
      (FP.get_columns opts) ∧
    (FP.get_data_to_save opts cell_ids cell main_map).2 =
      (if (FP.get_cell_data_by_map cell_ids main_map cell).length >
            opts.columns_to_save ∧ opts.className = "DemandSiteProcess" then
        [⟨cell.row, cell.col, main_map,
          (FP.get_cell_data_by_map cell_ids main_map cell).length,
          opts.columns_to_save⟩]
      else []) := by
  by_cases hne : FP.get_cell_data_by_map cell_ids main_map cell = []
  · have hr : FP.get_data_to_save opts cell_ids cell main_map =
        ((FP.get_columns opts).map (fun cn => (cn, "")), []) := by
      simp only [FP.get_data_to_save]
      rw [if_neg (by simp [hne])]
    refine ⟨?_, ?_, ?_, ?_⟩
    · simp [hr, hne]
    · intro kv hkv
      rw [hr] at hkv
      simp only [hne, List.length_nil, Nat.min_zero, List.drop_zero] at hkv
      obtain ⟨cn, _, hkv2⟩ := List.mem_map.mp hkv
      rw [← hkv2]
    · rw [hr]
      simp only [hne]
      have : ((FP.get_columns opts).map (fun cn => (cn, ""))).map Prod.fst =
          FP.get_columns opts := by
        rw [List.map_map]
        exact List.map_id' _
      rw [this]
    · rw [hr]
      simp [hne]
  · have hcond : (FP.get_cell_data_by_map cell_ids main_map cell).length > 0 :=
      List.length_pos.mpr hne
    have hcols : (FP.get_columns opts).length = opts.columns_to_save := by
      simp [FP.get_columns]
    have hfill : ((FP.get_columns opts).zip
          (FP.get_cell_data_by_map cell_ids main_map cell)).map
          (fun p => (p.1, p.2.name)) =
        (FP.get_columns opts).zip
          ((FP.get_cell_data_by_map cell_ids main_map cell).map (fun d => d.name)) :=
      zip_map_snd ..
    have hlenf : ((FP.get_columns opts).zip
          ((FP.get_cell_data_by_map cell_ids main_map cell).map
            (fun d => d.name))).length =
        min opts.columns_to_save
          (FP.get_cell_data_by_map cell_ids main_map cell).length := by
      rw [List.length_zip, hcols, List.length_map]
    have hr : FP.get_data_to_save opts cell_ids cell main_map =
        ((FP.get_columns opts).zip
            ((FP.get_cell_data_by_map cell_ids main_map cell).map (fun d => d.name)) ++
          (List.range (opts.columns_to_save -
              min opts.columns_to_save
                (FP.get_cell_data_by_map cell_ids main_map cell).length)).map
            (fun j => ((FP.get_columns opts).getD
              (opts.columns_to_save - (j + 1)) "", "")),
          if (FP.get_cell_data_by_map cell_ids main_map cell).length >
                opts.columns_to_save ∧ opts.className = "DemandSiteProcess" then
            [⟨cell.row, cell.col, main_map,
              (FP.get_cell_data_by_map cell_ids main_map cell).length,
              opts.columns_to_save⟩]
          else []) := by
      simp only [FP.get_data_to_save]
      rw [if_pos (by simp [hne])]
      rw [hfill]
    refine ⟨?_, ?_, ?_, ?_⟩
    · rw [hr]
      exact List.take_left' hlenf
    · intro kv hkv
      rw [hr] at hkv
      rw [List.drop_left' hlenf] at hkv
      obtain ⟨j, _, hkv2⟩ := List.mem_map.mp hkv
      rw [← hkv2]
    · rw [hr, List.map_append]
      have h1 : ((FP.get_columns opts).zip
            ((FP.get_cell_data_by_map cell_ids main_map cell).map
              (fun d => d.name))).map Prod.fst =
          (FP.get_columns opts).take
            (min opts.columns_to_save
              (FP.get_cell_data_by_map cell_ids main_map cell).length) := by
        rw [map_fst_zip_take, List.length_map]
        rw [List.take_eq_take]
        omega
      have h2 : ((List.range (opts.columns_to_save -
              min opts.columns_to_save
                (FP.get_cell_data_by_map cell_ids main_map cell).length)).map
            (fun j => ((FP.get_columns opts).getD
              (opts.columns_to_save - (j + 1)) "", ""))).map Prod.fst =
          ((FP.get_columns opts).drop
            (min opts.columns_to_save
              (FP.get_cell_data_by_map cell_ids main_map cell).length)).reverse := by
        rw [List.map_map]
        have := range_map_getD_eq_reverse_drop (FP.get_columns opts) ""
          (min opts.columns_to_save
            (FP.get_cell_data_by_map cell_ids main_map cell).length)
          (by rw [hcols]; omega)
        rw [hcols] at this
        rw [← this]
        rfl
      rw [h1, h2]
      have hperm := List.Perm.append_left
        ((FP.get_columns opts).take
          (min opts.columns_to_save
            (FP.get_cell_data_by_map cell_ids main_map cell).length))
        (List.reverse_perm
          ((FP.get_columns opts).drop
            (min opts.columns_to_save
              (FP.get_cell_data_by_map cell_ids main_map cell).length)))
      rw [List.take_append_drop] at hperm
      exact hperm
    · rw [hr]

/-- Claim C9: consolidation is deterministic — two runs over the same input
tuples presented in the same order produce identical cell entries (winner
and full column order) — and in the spec's scenario of one cell with
features A (metric 5), B (metric 8), C (metric 8) on a one-column layer the
emitted column is the single name B, a member of the tied set, selected by
the stable input order among the metric tie. -/
theorem C9_consolidation_deterministic (i1 i2 : List (FP.Cell × FP.DataRec))
    (h : i1 = i2) :
    FP.consolidate i1 = FP.consolidate i2 ∧
    (FP.get_data_to_save ⟨"CatchmentProcess", 1, "catch"⟩
        (FP.consolidate
          [(⟨0, 0⟩, ⟨5, 1, "A", "m"⟩), (⟨0, 0⟩, ⟨8, 2, "B", "m"⟩),
           (⟨0, 0⟩, ⟨8, 3, "C", "m"⟩)])
        ⟨0, 0⟩ "m").1 = [("catch1", "B")] ∧
    "B" ∈ ["B", "C"] := by
  subst h
  exact ⟨rfl, rfl, by decide⟩

/-- Witness for C9: the determinism theorem applied to two identical runs
over the scenario input. -/
theorem C9_consolidation_deterministic_witness :
    FP.consolidate
        [(⟨0, 0⟩, ⟨5, 1, "A", "m"⟩), (⟨0, 0⟩, ⟨8, 2, "B", "m"⟩),
         (⟨0, 0⟩, ⟨8, 3, "C", "m"⟩)] =
      FP.consolidate
        [(⟨0, 0⟩, ⟨5, 1, "A", "m"⟩), (⟨0, 0⟩, ⟨8, 2, "B", "m"⟩),
         (⟨0, 0⟩, ⟨8, 3, "C", "m"⟩)] ∧
    (FP.get_data_to_save ⟨"CatchmentProcess", 1, "catch"⟩
        (FP.consolidate
          [(⟨0, 0⟩, ⟨5, 1, "A", "m"⟩), (⟨0, 0⟩, ⟨8, 2, "B", "m"⟩),
           (⟨0, 0⟩, ⟨8, 3, "C", "m"⟩)])
        ⟨0, 0⟩ "m").1 = [("catch1", "B")] ∧
    "B" ∈ ["B", "C"] :=
  C9_consolidation_deterministic
    [(⟨0, 0⟩, ⟨5, 1, "A", "m"⟩), (⟨0, 0⟩, ⟨8, 2, "B", "m"⟩),
     (⟨0, 0⟩, ⟨8, 3, "C", "m"⟩)]
    [(⟨0, 0⟩, ⟨5, 1, "A", "m"⟩), (⟨0, 0⟩, ⟨8, 2, "B", "m"⟩),
     (⟨0, 0⟩, ⟨8, 3, "C", "m"⟩)] rfl

theorem segLoop_nil (rcat : Int) (rname : String) (isFirst : Bool) (bname : String)
    (bdist : ℚ) (last : RN.RData) :
    RN.segLoop rcat rname [] isFirst bname bdist last =
      [⟨rcat, .dist last.node_distance, .pct100,
        "Below " ++ last.node_name, rname⟩] := rfl

theorem claimSeg_nil (rcat : Int) (rname : String) (prevName : String)
    (prevDist : ℚ) (isFirst : Bool) :
    RN.claimSeg rcat rname [] prevName prevDist isFirst =
      [⟨rcat, .dist prevDist, .pct100, "Below " ++ prevName, rname⟩] := rfl

theorem segLoop_cons (rcat : Int) (rname : String) (c : RN.RNode)
    (cs : List RN.RNode) (isFirst : Bool) (bname : String) (bdist : ℚ)
    (last : RN.RData) :
    RN.segLoop rcat rname (c :: cs) isFirst bname bdist last =
      (if c.children.isEmpty then
        if c.rdata.node_type = 13 ∧ GeoLink.truthyId c.rdata.secondary_river_id then
          [⟨c.rdata.secondary_river_cat, .dist 0, .pct100,
            "Below " ++ c.rdata.secondary_river_name ++ " Headflow",
            c.rdata.secondary_river_name⟩]
        else []
      else []) ++
      ⟨rcat, .dist bdist, .dist c.rdata.node_distance,
        (if isFirst then "Below " ++ bname ++ " Headflow" else "Below " ++ bname),
        rname⟩ ::
      RN.segLoop rcat rname cs false c.rdata.node_name c.rdata.node_distance
        c.rdata := rfl

theorem claimSeg_cons (rcat : Int) (rname : String) (c : RN.RNode)
    (cs : List RN.RNode) (prevName : String) (prevDist : ℚ) (isFirst : Bool) :
    RN.claimSeg rcat rname (c :: cs) prevName prevDist isFirst =
      (if c.children.isEmpty ∧ c.rdata.node_type = 13 ∧
          GeoLink.truthyId c.rdata.secondary_river_id then
        [⟨c.rdata.secondary_river_cat, .dist 0, .pct100,
          "Below " ++ c.rdata.secondary_river_name ++ " Headflow",
          c.rdata.secondary_river_name⟩]
      else []) ++
      ⟨rcat, .dist prevDist, .dist c.rdata.node_distance,
        (if isFirst then "Below " ++ prevName ++ " Headflow"
         else "Below " ++ prevName), rname⟩ ::
      RN.claimSeg rcat rname cs c.rdata.node_name c.rdata.node_distance false := rfl

theorem extra_if_eq (c : RN.RNode) :
    (if c.children.isEmpty then
      if c.rdata.node_type = 13 ∧ GeoLink.truthyId c.rdata.secondary_river_id then
        [(⟨c.rdata.secondary_river_cat, .dist 0, .pct100,
          "Below " ++ c.rdata.secondary_river_name ++ " Headflow",
          c.rdata.secondary_river_name⟩ : RN.Segment)]
      else []
    else []) =
    (if c.children.isEmpty ∧ c.rdata.node_type = 13 ∧
        GeoLink.truthyId c.rdata.secondary_river_id then
      [(⟨c.rdata.secondary_river_cat, .dist 0, .pct100,
        "Below " ++ c.rdata.secondary_river_name ++ " Headflow",
        c.rdata.secondary_river_name⟩ : RN.Segment)]
    else []) := by
  by_cases hbe : c.children.isEmpty
  · by_cases hq : c.rdata.node_type = 13 ∧
      GeoLink.truthyId c.rdata.secondary_river_id = true
    · simp [hbe, hq]
    · simp [hbe, hq]
  · simp [hbe]

theorem segLoop_eq_claimSeg (rcat : Int) (rname : String) :
    ∀ (cs : List RN.RNode) (c : RN.RNode) (isFirst : Bool) (bname : String)
      (bdist : ℚ) (last : RN.RData),
    RN.segLoop rcat rname (c :: cs) isFirst bname bdist last =
      RN.claimSeg rcat rname (c :: cs) bname bdist isFirst := by
  intro cs
  induction cs with
  | nil =>
    intro c isFirst bname bdist last
    rw [segLoop_cons, claimSeg_cons, segLoop_nil, claimSeg_nil, extra_if_eq]
  | cons c2 cs2 ih =>
    intro c isFirst bname bdist last
    rw [segLoop_cons, claimSeg_cons,
      ih c2 false c.rdata.node_name c.rdata.node_distance c.rdata, extra_if_eq]

/-- Claim C2: for a river tree node with children sorted ascending by
distance, `0 < d1 <= ... <= dn`, segment derivation emits exactly the claim's
list: per child (in order) any extra full-length `[0, 100%]` segment on the
secondary river of a leaf TributaryInflow child with a resolved secondary
river, followed by the contiguous segment `[prevDist, di]` named
`Below <riverName> Headflow` for the first child and `Below <prevChildName>`
for the later ones, and after the last child the trailing segment
`[dn, 100%]` named `Below <lastChildName>` — `n+1` river segments plus one
extra per qualifying tributary child. -/
theorem C2_segment_derivation (river : RN.RNode) (c0 : RN.RNode)
    (rest : List RN.RNode) (hch : river.children = c0 :: rest)
    (hsorted : List.Pairwise
      (fun a b : RN.RNode => a.rdata.node_distance ≤ b.rdata.node_distance)
      river.children)
    (hpos : 0 < c0.rdata.node_distance) :
    RN.get_break_input_by_river river =
      RN.claimSeg river.rdata.node_cat river.rdata.node_name river.children
        river.rdata.node_name 0 true := by
  unfold RN.get_break_input_by_river RN.get_order_children_by_distance
  rw [List.Sorted.insertionSort_eq hsorted]
  rw [hch]
  exact segLoop_eq_claimSeg _ _ rest c0 true river.rdata.node_name 0 river.rdata

/-- Witness for C2: a river `R` with a tributary-inflow child `T` at
distance 3 (secondary river `S` resolved) and a withdrawal child `W` at
distance 4 derives exactly the claimed segment list. -/
theorem C2_segment_derivation_witness :
    RN.get_break_input_by_river
        (RN.RNode.mk ⟨1, "R", 21, 0, 5, none, "", 0⟩
          [RN.RNode.mk ⟨2, "T", 13, 3, 7, some 9, "S", 4⟩ [],
           RN.RNode.mk ⟨3, "W", 10, 4, 8, none, "", 0⟩ []]) =
      RN.claimSeg 5 "R"
        [RN.RNode.mk ⟨2, "T", 13, 3, 7, some 9, "S", 4⟩ [],
         RN.RNode.mk ⟨3, "W", 10, 4, 8, none, "", 0⟩ []] "R" 0 true :=
  C2_segment_derivation
    (RN.RNode.mk ⟨1, "R", 21, 0, 5, none, "", 0⟩
      [RN.RNode.mk ⟨2, "T", 13, 3, 7, some 9, "S", 4⟩ [],
       RN.RNode.mk ⟨3, "W", 10, 4, 8, none, "", 0⟩ []])
    (RN.RNode.mk ⟨2, "T", 13, 3, 7, some 9, "S", 4⟩ [])
    [RN.RNode.mk ⟨3, "W", 10, 4, 8, none, "", 0⟩ []]
    rfl
    (by
      show List.Pairwise _ [RN.RNode.mk ⟨2, "T", 13, 3, 7, some 9, "S", 4⟩ [],
        RN.RNode.mk ⟨3, "W", 10, 4, 8, none, "", 0⟩ []]
      refine List.Pairwise.cons ?_ (List.pairwise_singleton _ _)
      intro b hb
      rw [List.mem_singleton] at hb
      subst hb
      show (3 : ℚ) ≤ 4
      norm_num)
    (by show (0 : ℚ) < 3; norm_num)

theorem dlookup_dinsert {κ α : Type} [DecidableEq κ] (k k1 : κ) (v : α)
    (d : List (κ × α)) :
    GeoLink.dlookup k (GeoLink.dinsert k1 v d) =
      if k = k1 then some v else GeoLink.dlookup k d := by
  by_cases h : k = k1
  · subst h
    simp [GeoLink.dlookup_dinsert_self]
  · simp [h, GeoLink.dlookup_dinsert_ne]

theorem dlookup_set_cell (cs : List (FP.Cell × List (String × FP.DataRec)))
    (cell c : FP.Cell) (n : String) (r : FP.DataRec) :
    GeoLink.dlookup cell (FP.set_cell cs c n r) =
      if cell = c then
        some (match GeoLink.dlookup c cs with
          | some d =>
            (match GeoLink.dlookup n d with
              | some _ => FP.addMetric n r.metric d
              | none => d ++ [(n, r)])
          | none => [(n, r)])
      else GeoLink.dlookup cell cs := by
  unfold FP.set_cell
  split <;> first
    | (split <;> (rw [dlookup_dinsert] <;> simp_all))
    | (rw [dlookup_dinsert] <;> simp_all)

theorem set_cell_map_fst (cs : List (FP.Cell × List (String × FP.DataRec)))
    (c : FP.Cell) (n : String) (r : FP.DataRec) :
    (FP.set_cell cs c n r).map Prod.fst =
      if (GeoLink.dlookup c cs).isSome then cs.map Prod.fst
      else cs.map Prod.fst ++ [c] := by
  unfold FP.set_cell
  split <;> first
    | (split <;> simp_all [GeoLink.dinsert_map_fst])
    | simp_all [GeoLink.dinsert_map_fst]

theorem buildCells_concat (l : List (FP.Cell × FP.DataRec)) (x : FP.Cell × FP.DataRec) :
    FP.buildCells (l ++ [x]) = FP.set_cell (FP.buildCells l) x.1 x.2.name x.2 := by
  simp [FP.buildCells, List.foldl_append]

theorem inputsAt_append_singleton (l : List (FP.Cell × FP.DataRec))
    (x : FP.Cell × FP.DataRec) (cell : FP.Cell) :
    FP.inputsAt (l ++ [x]) cell =
      FP.inputsAt l cell ++ (if x.1 = cell then [x.2] else []) := by
  unfold FP.inputsAt
  rw [List.filter_append, List.map_append]
  by_cases h : x.1 = cell <;> simp [h]

theorem cellDict_concat (recs : List FP.DataRec) (r : FP.DataRec) :
    FP.cellDict (recs ++ [r]) =
      (match GeoLink.dlookup r.name (FP.cellDict recs) with
        | some _ => FP.addMetric r.name r.metric (FP.cellDict recs)
        | none => FP.cellDict recs ++ [(r.name, r)]) := by
  simp [FP.cellDict, List.foldl_append]

theorem dlookup_buildCells (inputs : List (FP.Cell × FP.DataRec)) (cell : FP.Cell) :
    GeoLink.dlookup cell (FP.buildCells inputs) =
      if FP.inputsAt inputs cell = [] then none
      else some (FP.cellDict (FP.inputsAt inputs cell)) := by
  induction inputs using List.reverseRecOn with
  | nil => simp [FP.buildCells, FP.inputsAt, GeoLink.dlookup]
  | append_singleton l x ih =>
    rw [buildCells_concat, dlookup_set_cell, inputsAt_append_singleton]
    by_cases hx : x.1 = cell
    · rw [if_pos hx, if_pos hx.symm]
      rw [show GeoLink.dlookup x.1 (FP.buildCells l) =
            GeoLink.dlookup cell (FP.buildCells l) from by rw [hx]]
      rw [ih]
      by_cases hemp : FP.inputsAt l cell = []
      · rw [if_pos hemp, hemp]
        rw [if_neg (by simp)]
        rw [show ([] : List FP.DataRec) ++ [x.2] = [x.2] from by simp]
        rw [show FP.cellDict [x.2] = [(x.2.name, x.2)] from rfl]
      · rw [if_neg hemp]
        rw [if_neg (by simp [hemp])]
        rw [cellDict_concat]
    · rw [if_neg hx, if_neg (fun hc => hx hc.symm)]
      rw [ih]
      simp [hx]

theorem buildCells_keys_nodup (inputs : List (FP.Cell × FP.DataRec)) :
    ((FP.buildCells inputs).map Prod.fst).Nodup := by
  induction inputs using List.reverseRecOn with
  | nil => simp [FP.buildCells]
  | append_singleton l x ih =>
    rw [buildCells_concat, set_cell_map_fst]
    by_cases h : (GeoLink.dlookup x.1 (FP.buildCells l)).isSome
    · rw [if_pos h]
      exact ih
    · rw [if_neg h]
      rw [List.nodup_append]
      refine ⟨ih, List.nodup_singleton _, ?_⟩
      intro a ha hb
      rw [List.mem_singleton] at hb
      subst hb
      exact h ((GeoLink.dlookup_isSome_iff_mem _ _).mpr ha)

theorem dlookup_append_some {κ α : Type} [DecidableEq κ] {k : κ} {v : α}
    {d1 : List (κ × α)} (d2 : List (κ × α)) (h : GeoLink.dlookup k d1 = some v) :
    GeoLink.dlookup k (d1 ++ d2) = some v := by
  rw [GeoLink.dlookup_append, h]

theorem dlookup_append_none {κ α : Type} [DecidableEq κ] {k : κ}
    {d1 : List (κ × α)} (d2 : List (κ × α)) (h : GeoLink.dlookup k d1 = none) :
    GeoLink.dlookup k (d1 ++ d2) = GeoLink.dlookup k d2 := by
  rw [GeoLink.dlookup_append, h]

theorem dlookup_addMetric (n : String) (m : ℚ) (d : List (String × FP.DataRec))
    (k : String) :
    GeoLink.dlookup k (FP.addMetric n m d) =
      if k = n then
        (GeoLink.dlookup n d).map (fun r => { r with metric := r.metric + m })
      else GeoLink.dlookup k d := by
  induction d with
  | nil => by_cases hk : k = n <;> simp [FP.addMetric, GeoLink.dlookup, hk]
  | cons kv rest ih =>
    obtain ⟨k1, v1⟩ := kv
    by_cases h1 : k1 = n
    · subst h1
      by_cases hk : k = k1 <;> simp [FP.addMetric, GeoLink.dlookup, hk]
    · by_cases hk : k = k1
      · subst hk
        simp [FP.addMetric, GeoLink.dlookup, h1, Ne.symm h1]
      · simp [FP.addMetric, GeoLink.dlookup, h1, Ne.symm h1, hk, ih]

theorem addMetric_map_fst (n : String) (m : ℚ) (d : List (String × FP.DataRec)) :
    (FP.addMetric n m d).map Prod.fst = d.map Prod.fst := by
  induction d with
  | nil => rfl
  | cons kv rest ih =>
    obtain ⟨k1, v1⟩ := kv
    by_cases h1 : k1 = n <;> simp [FP.addMetric, h1, ih]

theorem addMetric_name_key (n : String) (m : ℚ) (d : List (String × FP.DataRec))
    (h : ∀ kv ∈ d, (kv.2).name = kv.1) :
    ∀ kv ∈ FP.addMetric n m d, (kv.2).name = kv.1 := by
  induction d with
  | nil => simp [FP.addMetric]
  | cons kv0 rest ih =>
    obtain ⟨k1, v1⟩ := kv0
    intro kv hkv
    by_cases h1 : k1 = n
    · simp only [FP.addMetric, if_pos h1] at hkv
      rcases List.mem_cons.mp hkv with hh | hh
      · rw [hh]
        exact h (k1, v1) (List.mem_cons_self ..)
      · exact h kv (List.mem_cons_of_mem _ hh)
    · simp only [FP.addMetric, if_neg h1] at hkv
      rcases List.mem_cons.mp hkv with hh | hh
      · rw [hh]
        exact h (k1, v1) (List.mem_cons_self ..)
      · exact ih (fun kv2 hkv2 => h kv2 (List.mem_cons_of_mem _ hkv2)) kv hh

theorem filter_name_eq_nil (recs : List FP.DataRec) (n : String)
    (h : n ∉ recs.map (fun r => r.name)) :
    recs.filter (fun r => r.name = n) = [] := by
  rw [List.filter_eq_nil_iff]
  intro a ha
  simp only [decide_eq_true_eq]
  intro he
  exact h (List.mem_map.mpr ⟨a, ha, he⟩)

theorem cellDict_props (recs : List FP.DataRec) :
    ((FP.cellDict recs).map Prod.fst).Nodup ∧
    (∀ n, n ∈ (FP.cellDict recs).map Prod.fst ↔ n ∈ recs.map (fun r => r.name)) ∧
    (∀ kv ∈ FP.cellDict recs, (kv.2).name = kv.1) ∧
    (∀ n v, GeoLink.dlookup n (FP.cellDict recs) = some v →
      v.metric = ((recs.filter (fun r => r.name = n)).map (fun r => r.metric)).sum) ∧
    (FP.cellDict recs).length = (recs.map (fun r => r.name)).toFinset.card := by
  induction recs using List.reverseRecOn with
  | nil =>
    refine ⟨by simp [FP.cellDict], by simp [FP.cellDict], by simp [FP.cellDict],
      ?_, by simp [FP.cellDict]⟩
    intro n v hv
    simp [FP.cellDict, GeoLink.dlookup] at hv
  | append_singleton l x ih =>
    obtain ⟨ihnd, ihkeys, ihname, ihsum, ihlen⟩ := ih
    rw [cellDict_concat]
    cases hx : GeoLink.dlookup x.name (FP.cellDict l) with
    | some v0 =>
      have hxk : x.name ∈ (FP.cellDict l).map Prod.fst :=
        (GeoLink.dlookup_isSome_iff_mem ..).mp (by rw [hx]; rfl)
      have hxmem : x.name ∈ l.map (fun r => r.name) := (ihkeys x.name).mp hxk
      refine ⟨?_, ?_, ?_, ?_, ?_⟩
      · rw [addMetric_map_fst]
        exact ihnd
      · intro n
        rw [addMetric_map_fst, List.map_append]
        simp only [List.mem_append, List.map_cons, List.map_nil, List.mem_singleton]
        constructor
        · intro h
          exact Or.inl ((ihkeys n).mp h)
        · rintro (h | h)
          · exact (ihkeys n).mpr h
          · rw [h]
            exact hxk
      · exact addMetric_name_key _ _ _ ihname
      · intro n v hv
        rw [dlookup_addMetric] at hv
        by_cases hn : n = x.name
        · rw [if_pos hn, hx] at hv
          have hv2 : v = { v0 with metric := v0.metric + x.metric } :=
            (Option.some.inj hv).symm
          rw [List.filter_append, List.map_append, List.sum_append, hn]
          have hfx : List.filter (fun r => decide (r.name = x.name)) [x] = [x] := by
            simp
          rw [hfx, hv2]
          simp only [List.map_cons, List.map_nil, List.sum_cons, List.sum_nil,
            add_zero]
          rw [ihsum x.name v0 hx]
        · rw [if_neg hn] at hv
          rw [List.filter_append, List.map_append, List.sum_append]
          have hxn : ¬ (x.name = n) := fun he => hn he.symm
          have hfx : List.filter (fun r => decide (r.name = n)) [x] = [] := by
            simp [hxn]
          rw [hfx]
          simp [ihsum n v hv]
      · have hlen : (FP.addMetric x.name x.metric (FP.cellDict l)).length =
            (FP.cellDict l).length := by
          simpa using congrArg List.length (addMetric_map_fst x.name x.metric
            (FP.cellDict l))
        have hfin : (List.map (fun r => r.name) (l ++ [x])).toFinset =
            (List.map (fun r => r.name) l).toFinset := by
          rw [List.map_append, List.toFinset_append]
          have h1 : (List.map (fun r => r.name) [x]).toFinset = {x.name} := by
            simp
          rw [h1]
          exact Finset.union_eq_left.mpr
            (Finset.singleton_subset_iff.mpr (List.mem_toFinset.mpr hxmem))
        rw [hlen, ihlen, hfin]
    | none =>
      have hxnotk : x.name ∉ (FP.cellDict l).map Prod.fst :=
        (GeoLink.dlookup_eq_none_iff_not_mem ..).mp hx
      have hxnot : x.name ∉ l.map (fun r => r.name) :=
        fun h => hxnotk ((ihkeys x.name).mpr h)
      refine ⟨?_, ?_, ?_, ?_, ?_⟩
      · rw [List.map_append, List.nodup_append]
        refine ⟨ihnd, by simp, ?_⟩
        intro a ha hb
        simp only [List.map_cons, List.map_nil, List.mem_singleton] at hb
        rw [hb] at ha
        exact hxnotk ha
      · intro n
        rw [List.map_append, List.map_append]
        simp only [List.mem_append, List.map_cons, List.map_nil]
        exact or_congr (ihkeys n) Iff.rfl
      · intro kv hkv
        rcases List.mem_append.mp hkv with hh | hh
        · exact ihname kv hh
        · rw [List.mem_singleton] at hh
          rw [hh]
      · intro n v hv
        cases hdn : GeoLink.dlookup n (FP.cellDict l) with
        | some v1 =>
          rw [dlookup_append_some _ hdn] at hv
          have hv1 : v1 = v := Option.some.inj hv
          have hnem : n ∈ l.map (fun r => r.name) :=
            (ihkeys n).mp ((GeoLink.dlookup_isSome_iff_mem ..).mp (by rw [hdn]; rfl))
          have hxn : ¬ (x.name = n) := fun he => hxnot (he ▸ hnem)
          rw [List.filter_append, List.map_append, List.sum_append]
          have hfx : List.filter (fun r => decide (r.name = n)) [x] = [] := by
            simp [hxn]
          rw [hfx, ← hv1]
          simp [ihsum n v1 hdn]
        | none =>
          rw [dlookup_append_none _ hdn] at hv
          have hnotk : n ∉ (FP.cellDict l).map Prod.fst :=
            (GeoLink.dlookup_eq_none_iff_not_mem ..).mp hdn
          have hnn : n ∉ l.map (fun r => r.name) :=
            fun h => hnotk ((ihkeys n).mpr h)
          by_cases hn : n = x.name
          · have hvx : v = x := by
              simp [GeoLink.dlookup, hn] at hv
              exact hv.symm
            rw [List.filter_append, List.map_append, List.sum_append]
            rw [filter_name_eq_nil l n hnn]
            have hfx : List.filter (fun r => decide (r.name = n)) [x] = [x] := by
              simp [hn.symm]
            rw [hfx, hvx]
            simp
          · simp [GeoLink.dlookup, hn] at hv
      · rw [List.length_append, ihlen, List.map_append, List.toFinset_append]
        simp only [List.map_cons, List.map_nil, List.toFinset_cons,
          List.toFinset_nil, List.length_append, List.length_cons, List.length_nil]
        rw [Finset.union_comm]
        rw [show (insert x.name ∅ : Finset String) = {x.name} from rfl]
        rw [← Finset.insert_eq]
        rw [Finset.card_insert_of_not_mem
          (fun hmem => hxnot (List.mem_toFinset.mp hmem))]

theorem dlookup_foldl_dinsert_not_mem {κ α β : Type} [DecidableEq κ]
    (f : κ × α → β) (cs : List (κ × α)) (k : κ) :
    ∀ acc : List (κ × β), k ∉ cs.map Prod.fst →
      GeoLink.dlookup k
          (cs.foldl (fun a kv => GeoLink.dinsert kv.1 (f kv) a) acc) =
        GeoLink.dlookup k acc := by
  induction cs with
  | nil =>
    intro acc _
    rfl
  | cons kv0 rest ih =>
    intro acc hk
    obtain ⟨k1, v1⟩ := kv0
    simp only [List.map_cons, List.mem_cons, not_or] at hk
    rw [List.foldl_cons, ih _ hk.2]
    exact GeoLink.dlookup_dinsert_ne _ _ hk.1

theorem dlookup_foldl_dinsert_mem {κ α β : Type} [DecidableEq κ]
    (f : κ × α → β) (cs : List (κ × α)) (k : κ) (v : α) :
    ∀ acc : List (κ × β), (cs.map Prod.fst).Nodup → (k, v) ∈ cs →
      GeoLink.dlookup k
          (cs.foldl (fun a kv => GeoLink.dinsert kv.1 (f kv) a) acc) =
        some (f (k, v)) := by
  induction cs with
  | nil =>
    intro acc _ hm
    simp at hm
  | cons kv0 rest ih =>
    intro acc hnd hm
    obtain ⟨k1, v1⟩ := kv0
    simp only [List.map_cons, List.nodup_cons] at hnd
    rw [List.foldl_cons]
    rcases List.mem_cons.mp hm with hh | hh
    · have hk : k = k1 := congrArg Prod.fst hh
      have hv : v = v1 := congrArg Prod.snd hh
      subst hk
      subst hv
      rw [dlookup_foldl_dinsert_not_mem f rest k _ hnd.1]
      exact GeoLink.dlookup_dinsert_self ..
    · exact ih _ hnd.2 hh

theorem dlookup_set_cell_by_criteria
    (cells : List (FP.Cell × List (String × FP.DataRec)))
    (hnd : (cells.map Prod.fst).Nodup) (cell : FP.Cell)
    (d : List (String × FP.DataRec)) (hmem : (cell, d) ∈ cells) :
    GeoLink.dlookup cell (FP.set_cell_by_criteria cells) =
      some ⟨(FP.cell_order_criteria_default cell cells).length,
        (FP.cell_order_criteria_default cell cells).head?.map (fun r => r.cell_id),
        cell.row, cell.col, FP.cell_order_criteria_default cell cells⟩ := by
  unfold FP.set_cell_by_criteria
  exact dlookup_foldl_dinsert_mem
    (fun kv => (⟨(FP.cell_order_criteria_default kv.1 cells).length,
      (FP.cell_order_criteria_default kv.1 cells).head?.map (fun r => r.cell_id),
      kv.1.row, kv.1.col, FP.cell_order_criteria_default kv.1 cells⟩ :
        FP.CellEntry))
    cells cell d [] hnd hmem

theorem mem_keys_of_set_cell_by_criteria
    (cells : List (FP.Cell × List (String × FP.DataRec))) (cell : FP.Cell)
    (hsome : (GeoLink.dlookup cell (FP.set_cell_by_criteria cells)).isSome) :
    cell ∈ cells.map Prod.fst := by
  by_contra hnot
  have h2 : GeoLink.dlookup cell (FP.set_cell_by_criteria cells) = none := by
    unfold FP.set_cell_by_criteria
    exact dlookup_foldl_dinsert_not_mem
      (fun kv => (⟨(FP.cell_order_criteria_default kv.1 cells).length,
        (FP.cell_order_criteria_default kv.1 cells).head?.map (fun r => r.cell_id),
        kv.1.row, kv.1.col, FP.cell_order_criteria_default kv.1 cells⟩ :
          FP.CellEntry))
      cells cell [] hnot
  rw [h2] at hsome
  cases hsome

/-- Claim C3: after consolidation, for every cell entry: records with the
same feature name have their metrics summed into a single entry (the
entry's names are distinct and each entry's metric is the total metric of
its name in that cell), the entry's data is ordered by metric descending,
the feature count equals the number of distinct feature names seen in the
cell, and the recorded winning external cell id is the one attached to the
first (largest-metric) feature of the ordering. -/
theorem C3_consolidation (inputs : List (FP.Cell × FP.DataRec)) (cell : FP.Cell)
    (e : FP.CellEntry)
    (he : GeoLink.dlookup cell (FP.consolidate inputs) = some e) :
    e.number_of_data =
      ((FP.inputsAt inputs cell).map (fun r => r.name)).toFinset.card ∧
    List.Pairwise (fun a b : FP.DataRec => b.metric ≤ a.metric) e.data ∧
    (e.data.map (fun r => r.name)).Nodup ∧
    (∀ n, n ∈ (FP.inputsAt inputs cell).map (fun r => r.name) ↔
      n ∈ e.data.map (fun r => r.name)) ∧
    (∀ r ∈ e.data, r.metric = FP.metricSum inputs cell r.name) ∧
    e.cell_id = e.data.head?.map (fun r => r.cell_id) ∧
    (∀ r ∈ e.data, ∀ hh ∈ e.data.head?, r.metric ≤ hh.metric) ∧
    e.data ≠ [] := by
  have hnd := buildCells_keys_nodup inputs
  rw [show FP.consolidate inputs =
    FP.set_cell_by_criteria (FP.buildCells inputs) from rfl] at he
  have hsome : (GeoLink.dlookup cell
      (FP.set_cell_by_criteria (FP.buildCells inputs))).isSome := by
    rw [he]
    rfl
  have hkey : cell ∈ (FP.buildCells inputs).map Prod.fst :=
    mem_keys_of_set_cell_by_criteria _ _ hsome
  have hdsome := (GeoLink.dlookup_isSome_iff_mem cell (FP.buildCells inputs)).mpr hkey
  obtain ⟨d, hd⟩ := Option.isSome_iff_exists.mp hdsome
  have hmem : (cell, d) ∈ FP.buildCells inputs := GeoLink.mem_of_dlookup_eq_some hd
  have hent := dlookup_set_cell_by_criteria (FP.buildCells inputs) hnd cell d hmem
  have he2 : e = ⟨(FP.cell_order_criteria_default cell (FP.buildCells inputs)).length,
      (FP.cell_order_criteria_default cell (FP.buildCells inputs)).head?.map
        (fun r => r.cell_id),
      cell.row, cell.col,
      FP.cell_order_criteria_default cell (FP.buildCells inputs)⟩ :=
    Option.some.inj (he.symm.trans hent)
  have hco : FP.cell_order_criteria_default cell (FP.buildCells inputs) =
      (List.insertionSort
        (fun a b : String × FP.DataRec => b.2.metric ≤ a.2.metric) d).map
        (fun p => p.2) := by
    simp only [FP.cell_order_criteria_default, hd, Option.getD_some]
  have hbc := dlookup_buildCells inputs cell
  rw [hd] at hbc
  by_cases hemp : FP.inputsAt inputs cell = []
  · rw [if_pos hemp] at hbc
    cases hbc
  · rw [if_neg hemp] at hbc
    have hdc : d = FP.cellDict (FP.inputsAt inputs cell) := Option.some.inj hbc
    obtain ⟨pnd, pkeys, pname, psum, plen⟩ :=
      cellDict_props (FP.inputsAt inputs cell)
    rw [← hdc] at pnd pkeys pname psum plen
    haveI : IsTotal (String × FP.DataRec)
        (fun a b => b.2.metric ≤ a.2.metric) :=
      ⟨fun a b => le_total b.2.metric a.2.metric⟩
    haveI : IsTrans (String × FP.DataRec)
        (fun a b => b.2.metric ≤ a.2.metric) :=
      ⟨fun a b c hab hbc => le_trans hbc hab⟩
    have hsorted := List.sorted_insertionSort
      (fun a b : String × FP.DataRec => b.2.metric ≤ a.2.metric) d
    have hperm := List.perm_insertionSort
      (fun a b : String × FP.DataRec => b.2.metric ≤ a.2.metric) d
    have hnum : e.number_of_data =
        (FP.cell_order_criteria_default cell (FP.buildCells inputs)).length := by
      rw [he2]
    have hdat0 : e.data =
        FP.cell_order_criteria_default cell (FP.buildCells inputs) := by
      rw [he2]
    have hcid : e.cell_id =
        (FP.cell_order_criteria_default cell (FP.buildCells inputs)).head?.map
          (fun r => r.cell_id) := by
      rw [he2]
    have hdata : e.data =
        (List.insertionSort
          (fun a b : String × FP.DataRec => b.2.metric ≤ a.2.metric) d).map
          (fun p => p.2) := hdat0.trans hco
    have hnamemap : ((List.insertionSort
        (fun a b : String × FP.DataRec => b.2.metric ≤ a.2.metric) d).map
          (fun p => p.2)).map (fun r => r.name) =
        (List.insertionSort
          (fun a b : String × FP.DataRec => b.2.metric ≤ a.2.metric) d).map
          Prod.fst := by
      rw [List.map_map]
      exact List.map_congr_left (fun kv hkv => pname kv (hperm.mem_iff.mp hkv))
    have hpw : List.Pairwise (fun a b : FP.DataRec => b.metric ≤ a.metric) e.data := by
      rw [hdata]
      exact List.Pairwise.map _ (fun a b h => h) hsorted
    refine ⟨?_, hpw, ?_, ?_, ?_, ?_, ?_, ?_⟩
    · rw [hnum, hco, List.length_map, hperm.length_eq, plen]
    · rw [hdata, hnamemap]
      exact ((hperm.map Prod.fst).nodup_iff).mpr pnd
    · intro n
      rw [hdata, hnamemap]
      exact (pkeys n).symm.trans ((hperm.map Prod.fst).mem_iff).symm
    · intro r hr
      rw [hdata] at hr
      obtain ⟨kv, hkv, hkv2⟩ := List.mem_map.mp hr
      have hkvd : kv ∈ d := hperm.mem_iff.mp hkv
      have hlook : GeoLink.dlookup kv.1 d = some kv.2 :=
        GeoLink.dlookup_eq_some_of_mem_nodup pnd hkvd
      have hs := psum kv.1 kv.2 hlook
      rw [← hkv2, pname kv hkvd]
      simp only [FP.metricSum]
      exact hs
    · rw [hcid, hdat0]
    · intro r hr hh hhh
      rw [Option.mem_def] at hhh
      cases hdat : e.data with
      | nil =>
        rw [hdat] at hhh
        cases hhh
      | cons h0 t =>
        rw [hdat] at hhh hr hpw
        simp only [List.head?_cons] at hhh
        have hh0 : hh = h0 := (Option.some.inj hhh).symm
        rw [hh0]
        rcases List.mem_cons.mp hr with hre | hre
        · rw [hre]
        · exact (List.pairwise_cons.mp hpw).1 r hre
    · have hlen : e.data.length =
          ((FP.inputsAt inputs cell).map (fun r => r.name)).toFinset.card := by
        rw [hdata, List.length_map, hperm.length_eq, plen]
      intro hnil
      rw [hnil] at hlen
      obtain ⟨r0, rs, hre⟩ := List.exists_cons_of_ne_nil hemp
      have hmemf : r0.name ∈
          ((FP.inputsAt inputs cell).map (fun r => r.name)).toFinset := by
        rw [hre]
        simp
      have hpos := Finset.card_pos.mpr ⟨r0.name, hmemf⟩
      rw [← hlen] at hpos
      simp at hpos

/-- Witness for C3: two intersection tuples with distinct features A and B
in one cell consolidate into an entry whose feature count equals the number
of distinct names seen in the cell. -/
theorem C3_consolidation_witness :
    (⟨2, some 1, 0, 0,
      [⟨5, 1, "A", "m"⟩, ⟨4, 3, "B", "m"⟩]⟩ : FP.CellEntry).number_of_data =
      ((FP.inputsAt
        [((⟨0, 0⟩ : FP.Cell), (⟨5, 1, "A", "m"⟩ : FP.DataRec)),
         (⟨0, 0⟩, ⟨4, 3, "B", "m"⟩)] ⟨0, 0⟩).map (fun r => r.name)).toFinset.card :=
  (C3_consolidation
    [((⟨0, 0⟩ : FP.Cell), (⟨5, 1, "A", "m"⟩ : FP.DataRec)),
     (⟨0, 0⟩, ⟨4, 3, "B", "m"⟩)] ⟨0, 0⟩
    ⟨2, some 1, 0, 0, [⟨5, 1, "A", "m"⟩, ⟨4, 3, "B", "m"⟩]⟩
    (by decide)).1
